import Mathlib

/-!
Verification of the simulation core of the `buh_vesnice` isometric settlement
sandbox (Phaser/TypeScript).  The definitions below are a shallow embedding of
the code in `src/utils/isometric.ts`, `src/utils/noise.ts`,
`src/config/constants.ts` and `src/scenes/GameScene.ts`.

Modelling conventions:
* JavaScript numbers holding continuous quantities (sprite positions, the
  Euclidean distance computed with `Math.sqrt`) are modelled as real numbers;
  quantities that the program only ever adds and compares (timers, thresholds,
  noise samples, random draws) are modelled as rationals, grid coordinates as
  integers.
* Rendering-only state (sprite handles, tints, depth values, lights, UI
  indicators) is not part of the model; the tree-sprite map `treeMap` is kept
  as the set of grid coordinates that currently carry a tree sprite, since the
  game logic reads and mutates it.
* The ambient sources of nondeterminism used by the code (`Math.random()` in
  terrain generation, `Phaser.Math.Between` for wander targets) are modelled
  as explicit streams of values supplied to the embedding.
* `Map` objects keyed by `"x,y"` strings are modelled as association lists
  keyed by integer pairs, with JavaScript `Map.set` semantics (replace in
  place, insertion order preserved); `Set` objects as finite sets.
-/

/-- Terrain classification, from `TerrainType` in `src/config/constants.ts`. -/
inductive TerrainType where
  | meadow
  | forest
  | water
  | rocks
deriving DecidableEq, Repr

/-- Building kinds, from the `BuildingType` union used by `GameScene`. -/
inductive BuildingType where
  | house
  | teepee
  | villager
deriving DecidableEq, Repr

/-- Villager state machine states, from the `state` field of `Villager`. -/
inductive VillagerState where
  | walking
  | working
  | idle
deriving DecidableEq, Repr

/-- `TILE_WIDTH` from `src/config/constants.ts`. -/
def TILE_WIDTH : ℝ := 64

/-- `TILE_HEIGHT` from `src/config/constants.ts`. -/
def TILE_HEIGHT : ℝ := 32

/-- `WORLD_WIDTH` from `src/config/constants.ts`. -/
def WORLD_WIDTH : ℕ := 100

/-- `WORLD_HEIGHT` from `src/config/constants.ts`. -/
def WORLD_HEIGHT : ℕ := 100

/-- `TREE_WORK_DURATION` (ms) from `src/config/constants.ts`. -/
def TREE_WORK_DURATION : ℚ := 2000

/-- `WOOD_PER_DELIVERY` from `src/config/constants.ts`. -/
def WOOD_PER_DELIVERY : ℕ := 3

/-- `FOREST_TO_MEADOW_DELAY` (ms) from `src/config/constants.ts`. -/
def FOREST_TO_MEADOW_DELAY : ℚ := 5000

/-- `VILLAGER_ANIM_INTERVAL` (ms) from `src/config/constants.ts`. -/
def VILLAGER_ANIM_INTERVAL : ℚ := 300

/-- `VILLAGER_SPEED` from `src/config/constants.ts`. -/
def VILLAGER_SPEED : ℝ := 1

/-- The terrain-generation settings record `TERRAIN_CONFIG`
from `src/config/constants.ts`. -/
structure TerrainConfig where
  waterThreshold : ℚ
  forestThreshold : ℚ
  rocksChance : ℚ
  noiseScale : ℚ
deriving DecidableEq, Repr

/-- `TERRAIN_CONFIG` values from `src/config/constants.ts`. -/
def TERRAIN_CONFIG : TerrainConfig :=
  { waterThreshold := 3 / 10
    forestThreshold := 3 / 5
    rocksChance := 1 / 100
    noiseScale := 1 / 20 }

/-- `gridToScreen` from `src/utils/isometric.ts`:
`x = (gridX - gridY) * (TILE_WIDTH / 2)`, `y = (gridX + gridY) * (TILE_HEIGHT / 2)`. -/
noncomputable def gridToScreen (gridX gridY : ℝ) : ℝ × ℝ :=
  ((gridX - gridY) * (TILE_WIDTH / 2), (gridX + gridY) * (TILE_HEIGHT / 2))

/-- `screenToGrid` from `src/utils/isometric.ts`:
`gridX = floor((x/(TILE_WIDTH/2) + y/(TILE_HEIGHT/2))/2)`,
`gridY = floor((y/(TILE_HEIGHT/2) - x/(TILE_WIDTH/2))/2)`. -/
noncomputable def screenToGrid (screenX screenY : ℝ) : ℤ × ℤ :=
  (⌊(screenX / (TILE_WIDTH / 2) + screenY / (TILE_HEIGHT / 2)) / 2⌋,
   ⌊(screenY / (TILE_HEIGHT / 2) - screenX / (TILE_WIDTH / 2)) / 2⌋)

/-- `calculateDepth` from `src/utils/isometric.ts`. -/
noncomputable def calculateDepth (gridX gridY : ℝ) : ℝ :=
  (gridX + gridY) * 100

/-- C1: for every integer grid coordinate `(gridX, gridY)` with
`0 ≤ gridX < WORLD_WIDTH` and `0 ≤ gridY < WORLD_HEIGHT`, applying
`screenToGrid` to the result of `gridToScreen (gridX, gridY)` returns exactly
`(gridX, gridY)`. -/
theorem screenToGrid_gridToScreen_roundtrip (gridX gridY : ℤ)
    (hx0 : 0 ≤ gridX) (hx1 : gridX < (WORLD_WIDTH : ℤ))
    (hy0 : 0 ≤ gridY) (hy1 : gridY < (WORLD_HEIGHT : ℤ)) :
    screenToGrid (gridToScreen (gridX : ℝ) (gridY : ℝ)).1
      (gridToScreen (gridX : ℝ) (gridY : ℝ)).2 = (gridX, gridY) := by
  unfold screenToGrid gridToScreen TILE_WIDTH TILE_HEIGHT
  have h1 : (((gridX : ℝ) - gridY) * (64 / 2) / (64 / 2)
      + ((gridX : ℝ) + gridY) * (32 / 2) / (32 / 2)) / 2 = (gridX : ℝ) := by
    ring
  have h2 : (((gridX : ℝ) + gridY) * (32 / 2) / (32 / 2)
      - ((gridX : ℝ) - gridY) * (64 / 2) / (64 / 2)) / 2 = (gridY : ℝ) := by
    ring
  simp only [h1, h2, Int.floor_intCast]

/-- Witness for C1 at the concrete grid coordinate `(3, 5)`. -/
theorem screenToGrid_gridToScreen_roundtrip_witness :
    (0 ≤ (3 : ℤ) ∧ (3 : ℤ) < (WORLD_WIDTH : ℤ) ∧ 0 ≤ (5 : ℤ) ∧ (5 : ℤ) < (WORLD_HEIGHT : ℤ))
      ∧ screenToGrid (gridToScreen ((3 : ℤ) : ℝ) ((5 : ℤ) : ℝ)).1
          (gridToScreen ((3 : ℤ) : ℝ) ((5 : ℤ) : ℝ)).2 = (3, 5) :=
  ⟨by decide,
   screenToGrid_gridToScreen_roundtrip 3 5 (by decide) (by decide) (by decide) (by decide)⟩

/-- The seeded noise generator from `src/utils/noise.ts`.  Its only state is
the numeric `seed` fixed at construction time. -/
structure NoiseGenerator where
  seed : ℝ

namespace NoiseGenerator

/-- `NoiseGenerator.random` from `src/utils/noise.ts`:
`dot = x * 12.9898 + y * 78.233 + seed`, `sin = Math.sin(dot) * 43758.5453123`,
returns `sin - Math.floor(sin)`. -/
noncomputable def random (ng : NoiseGenerator) (x y : ℝ) : ℝ :=
  let dot := x * 12.9898 + y * 78.233 + ng.seed
  let s := Real.sin dot * 43758.5453123
  s - ⌊s⌋

/-- `NoiseGenerator.lerp` from `src/utils/noise.ts`. -/
noncomputable def lerp (a b t : ℝ) : ℝ :=
  a + (b - a) * t

/-- `NoiseGenerator.smoothstep` from `src/utils/noise.ts`. -/
noncomputable def smoothstep (t : ℝ) : ℝ :=
  t * t * (3 - 2 * t)

/-- `NoiseGenerator.noise` from `src/utils/noise.ts`: smoothed bilinear
interpolation of the lattice values around `(x, y)`. -/
noncomputable def noise (ng : NoiseGenerator) (x y : ℝ) : ℝ :=
  let floorX : ℝ := ⌊x⌋
  let floorY : ℝ := ⌊y⌋
  let fracX := x - floorX
  let fracY := y - floorY
  let v00 := ng.random floorX floorY
  let v10 := ng.random (floorX + 1) floorY
  let v01 := ng.random floorX (floorY + 1)
  let v11 := ng.random (floorX + 1) (floorY + 1)
  let smoothX := smoothstep fracX
  let smoothY := smoothstep fracY
  let i1 := lerp v00 v10 smoothX
  let i2 := lerp v01 v11 smoothX
  lerp i1 i2 smoothY

/-- The octave accumulation loop of `NoiseGenerator.octaveNoise`
(`total` and `maxValue` after `n` iterations). -/
noncomputable def octaveTotals (ng : NoiseGenerator) (x y persistence : ℝ) :
    ℕ → ℝ × ℝ
  | 0 => (0, 0)
  | n + 1 =>
    let p := octaveTotals ng x y persistence n
    (p.1 + ng.noise (x * 2 ^ n) (y * 2 ^ n) * persistence ^ n, p.2 + persistence ^ n)

/-- `NoiseGenerator.octaveNoise` from `src/utils/noise.ts`. -/
noncomputable def octaveNoise (ng : NoiseGenerator) (x y : ℝ)
    (octaves : ℕ) (persistence : ℝ) : ℝ :=
  let p := octaveTotals ng x y persistence octaves
  p.1 / p.2

end NoiseGenerator

/-- The per-cell classification step of `generateTerrain`
(`src/scenes/GameScene.ts`, lines 164-187).  `v` is the sampled noise value;
`rand k` is the value of the `Math.random()` call used for the rocks chance
(consumed, advancing the stream index, only on cells in the meadow band,
exactly as the code only calls `Math.random()` there). -/
def classifyCell (cfg : TerrainConfig) (v : ℚ) (rand : ℕ → ℚ) (k : ℕ) :
    TerrainType × ℕ :=
  if v < cfg.waterThreshold then (.water, k)
  else if v > cfg.forestThreshold then (.forest, k)
  else if rand k < cfg.rocksChance then (.rocks, k + 1)
  else (.meadow, k + 1)

/-- The inner `gridX` loop of `generateTerrain`: generates `n` cells of row
`gy` starting at column `gx`, threading the `Math.random()` stream index. -/
def genCells (noiseFn : ℚ → ℚ → ℚ) (cfg : TerrainConfig) (rand : ℕ → ℚ)
    (gy : ℕ) : ℕ → ℕ → ℕ → List TerrainType × ℕ
  | _, 0, k => ([], k)
  | gx, n + 1, k =>
    let v := noiseFn ((gx : ℚ) * cfg.noiseScale) ((gy : ℚ) * cfg.noiseScale)
    let c := classifyCell cfg v rand k
    let rest := genCells noiseFn cfg rand gy (gx + 1) n c.2
    (c.1 :: rest.1, rest.2)

/-- The outer `gridY` loop of `generateTerrain`. -/
def genRows (noiseFn : ℚ → ℚ → ℚ) (cfg : TerrainConfig) (rand : ℕ → ℚ)
    (width : ℕ) : ℕ → ℕ → ℕ → List (List TerrainType) × ℕ
  | _, 0, k => ([], k)
  | gy, n + 1, k =>
    let row := genCells noiseFn cfg rand gy 0 width k
    let rest := genRows noiseFn cfg rand width (gy + 1) n row.2
    (row.1 :: rest.1, rest.2)

/-- `generateTerrain` from `src/scenes/GameScene.ts` (lines 158-190),
parametrised by the injected noise sampler (`this.noiseGenerator.octaveNoise`
applied to `(gridX * noiseScale, gridY * noiseScale)`; any JavaScript float it
returns is a rational) and by the ambient `Math.random()` stream used for the
rocks chance.  World dimensions are the configurable `WORLD_WIDTH` and
`WORLD_HEIGHT` constants. -/
def generateTerrain (noiseFn : ℚ → ℚ → ℚ) (cfg : TerrainConfig)
    (width height : ℕ) (rand : ℕ → ℚ) : List (List TerrainType) :=
  (genRows noiseFn cfg rand width 0 height 0).1

/-- The Water / Forest / meadow-band category of a tile: the part of the
classification that depends only on the sampled noise value, not on the
`Math.random()` rocks draw. -/
def catOf : TerrainType → ℕ
  | .water => 0
  | .forest => 1
  | .meadow => 2
  | .rocks => 2

/-- A noise sampler that always lands in the meadow band of
`TERRAIN_CONFIG` (value `1/2` lies between `waterThreshold = 0.3` and
`forestThreshold = 0.6`). -/
def nfMeadowBand : ℚ → ℚ → ℚ := fun _ _ => 1 / 2

/-- Counterexample to C7: two runs of `generateTerrain` with the same seed
(hence the same noise sampler), same 2×2 dimensions and same configuration,
but different ambient `Math.random()` draws for the rocks chance, produce
different tile grids: with draws `0` every cell is Rocks, with draws `1/2`
every cell is Meadow. -/
theorem generateTerrain_same_seed_differs :
    generateTerrain nfMeadowBand TERRAIN_CONFIG 2 2 (fun _ => 0)
        = [[.rocks, .rocks], [.rocks, .rocks]]
    ∧ generateTerrain nfMeadowBand TERRAIN_CONFIG 2 2 (fun _ => 1 / 2)
        = [[.meadow, .meadow], [.meadow, .meadow]]
    ∧ generateTerrain nfMeadowBand TERRAIN_CONFIG 2 2 (fun _ => 0)
        ≠ generateTerrain nfMeadowBand TERRAIN_CONFIG 2 2 (fun _ => 1 / 2) := by
  have h1 : generateTerrain nfMeadowBand TERRAIN_CONFIG 2 2 (fun _ => 0)
      = [[.rocks, .rocks], [.rocks, .rocks]] := by
    norm_num [generateTerrain, genRows, genCells, classifyCell, TERRAIN_CONFIG, nfMeadowBand]
  have h2 : generateTerrain nfMeadowBand TERRAIN_CONFIG 2 2 (fun _ => 1 / 2)
      = [[.meadow, .meadow], [.meadow, .meadow]] := by
    norm_num [generateTerrain, genRows, genCells, classifyCell, TERRAIN_CONFIG, nfMeadowBand]
  refine ⟨h1, h2, ?_⟩
  rw [h1, h2]
  simp

/-- Auxiliary for C7: the cell loop produces category-identical rows and
equal stream indices for any two `Math.random()` streams. -/
theorem genCells_cat_eq (noiseFn : ℚ → ℚ → ℚ) (cfg : TerrainConfig)
    (r1 r2 : ℕ → ℚ) (gy : ℕ) :
    ∀ n gx k,
      (genCells noiseFn cfg r1 gy gx n k).1.map catOf
          = (genCells noiseFn cfg r2 gy gx n k).1.map catOf
      ∧ (genCells noiseFn cfg r1 gy gx n k).2 = (genCells noiseFn cfg r2 gy gx n k).2 := by
  intro n
  induction n with
  | zero => intro gx k; exact ⟨rfl, rfl⟩
  | succ n ih =>
    intro gx k
    simp only [genCells, classifyCell]
    split
    · simpa using ih (gx + 1) k
    · split
      · simpa using ih (gx + 1) k
      · constructor
        · have h := (ih (gx + 1) (k + 1)).1
          split <;> split <;> simpa [catOf] using h
        · have h := (ih (gx + 1) (k + 1)).2
          split <;> split <;> simpa using h

/-- Auxiliary for C7: the row loop produces category-identical grids and
equal stream indices for any two `Math.random()` streams. -/
theorem genRows_cat_eq (noiseFn : ℚ → ℚ → ℚ) (cfg : TerrainConfig)
    (r1 r2 : ℕ → ℚ) (width : ℕ) :
    ∀ n gy k,
      (genRows noiseFn cfg r1 width gy n k).1.map (List.map catOf)
          = (genRows noiseFn cfg r2 width gy n k).1.map (List.map catOf)
      ∧ (genRows noiseFn cfg r1 width gy n k).2 = (genRows noiseFn cfg r2 width gy n k).2 := by
  intro n
  induction n with
  | zero => intro gy k; exact ⟨rfl, rfl⟩
  | succ n ih =>
    intro gy k
    simp only [genRows]
    have hc := genCells_cat_eq noiseFn cfg r1 r2 gy width 0 k
    rw [hc.2]
    exact ⟨by simp [hc.1, (ih (gy + 1) ((genCells noiseFn cfg r2 width 0 width k)).2).1,
      (ih (gy + 1) _).1], (ih (gy + 1) _).2⟩

/-- C7 (amended): terrain generation is deterministic in the seed *and* the
rocks random draws: two runs with the same seed (same noise sampler),
dimensions and configuration always agree on the Water / Forest / meadow-band
category of every cell, and produce fully identical grids whenever the
ambient `Math.random()` draws also coincide. -/
theorem generateTerrain_deterministic (noiseFn : ℚ → ℚ → ℚ)
    (cfg : TerrainConfig) (width height : ℕ) (r1 r2 : ℕ → ℚ) :
    (generateTerrain noiseFn cfg width height r1).map (List.map catOf)
        = (generateTerrain noiseFn cfg width height r2).map (List.map catOf)
    ∧ (r1 = r2 →
        generateTerrain noiseFn cfg width height r1
          = generateTerrain noiseFn cfg width height r2) := by
  constructor
  · exact (genRows_cat_eq noiseFn cfg r1 r2 width height 0 0).1
  · rintro rfl; rfl

/-- Witness for C7 (amended) at concrete inputs. -/
theorem generateTerrain_deterministic_witness :
    (generateTerrain nfMeadowBand TERRAIN_CONFIG 3 3 (fun _ => 0)).map (List.map catOf)
        = (generateTerrain nfMeadowBand TERRAIN_CONFIG 3 3 (fun _ => 0)).map (List.map catOf)
    ∧ generateTerrain nfMeadowBand TERRAIN_CONFIG 3 3 (fun _ => 0)
        = generateTerrain nfMeadowBand TERRAIN_CONFIG 3 3 (fun _ => 0) :=
  ⟨(generateTerrain_deterministic nfMeadowBand TERRAIN_CONFIG 3 3 (fun _ => 0) (fun _ => 0)).1,
   (generateTerrain_deterministic nfMeadowBand TERRAIN_CONFIG 3 3 (fun _ => 0) (fun _ => 0)).2 rfl⟩

/-- A registered building record, from the value type of `buildingsMap` in
`GameScene` (rendering-only fields — sprite, indicator, lights — omitted). -/
structure Building where
  btype : BuildingType
  occupied : Bool
  gridX : ℤ
  gridY : ℤ
deriving DecidableEq, Repr

/-- A pending regrowth record, from the `CutTree` entries of
`GameScene.cutTrees`. -/
structure CutTree where
  gridX : ℤ
  gridY : ℤ
  timer : ℚ
deriving DecidableEq, Repr

/-- A villager agent, from the `Villager` records of `GameScene.villagers`
(the sprite handle is represented by its logical position `x, y`; the
texture key is represented by `animFrame`). -/
@[ext] structure Villager where
  x : ℝ
  y : ℝ
  vtype : BuildingType
  state : VillagerState
  targetX : ℝ
  targetY : ℝ
  targetGridX : ℤ
  targetGridY : ℤ
  homeX : ℝ
  homeY : ℝ
  speed : ℝ
  animFrame : ℕ
  animTimer : ℚ
  workTimer : ℚ
  hasWood : Bool
  assignedBuilding : Option ℕ

/-- The mutable state of `GameScene` that the simulation core reads and
writes.  `buildings` is the pool of building records; `buildingsMap`
associates each footprint cell with the index of its record in `buildings`
(all cells of one building share one index, modelling the shared object
reference in the code).  `rng` is the stream of values produced by
`Phaser.Math.Between` for wander targets. -/
@[ext] structure World where
  width : ℕ
  height : ℕ
  terrain : List (List TerrainType)
  occupiedTiles : Finset (ℤ × ℤ)
  treeMap : Finset (ℤ × ℤ)
  buildings : List Building
  buildingsMap : List ((ℤ × ℤ) × ℕ)
  cutTrees : List CutTree
  villagers : List Villager
  woodCount : ℕ
  rng : List ℤ

/-- Terrain lookup `terrain[gridY][gridX]` with natural-number indices. -/
def tileAtN (g : List (List TerrainType)) (gx gy : ℕ) : Option TerrainType :=
  (g.get? gy).bind fun row => row.get? gx

/-- Terrain lookup `terrain[gridY][gridX]` with integer indices (JavaScript
indexing of a missing row or column yields `undefined`, modelled as `none`). -/
def tileAtZ (g : List (List TerrainType)) (gx gy : ℤ) : Option TerrainType :=
  if 0 ≤ gx ∧ 0 ≤ gy then tileAtN g gx.toNat gy.toNat else none

/-- Terrain lookup `this.terrain[gridY][gridX]` on the world state. -/
def tileAt (w : World) (gx gy : ℤ) : Option TerrainType :=
  tileAtZ w.terrain gx gy

/-- In-place update `terrain[gridY][gridX] = t` (a no-op outside the grid,
which the code never performs). -/
def setTile (g : List (List TerrainType)) (gx gy : ℤ) (t : TerrainType) :
    List (List TerrainType) :=
  if 0 ≤ gx ∧ 0 ≤ gy then
    match g.get? gy.toNat with
    | some row => g.set gy.toNat (row.set gx.toNat t)
    | none => g
  else g

/-- JavaScript `Map.set` on an association list: replace the value in place
if the key is present (keeping its insertion position), else append. -/
def mapSet (m : List ((ℤ × ℤ) × ℕ)) (k : ℤ × ℤ) (v : ℕ) :
    List ((ℤ × ℤ) × ℕ) :=
  match m with
  | [] => [(k, v)]
  | e :: rest => if e.1 = k then (k, v) :: rest else e :: mapSet rest k v

/-- The occupied-tile set written during `renderTerrain`
(`src/scenes/GameScene.ts`, lines 240-251): every Forest and Rocks cell is
marked occupied. -/
def initialOccupied (g : List (List TerrainType)) (width height : ℕ) :
    Finset (ℤ × ℤ) :=
  ((List.range height).bind fun gy => (List.range width).filterMap fun gx =>
    if tileAtN g gx gy = some .forest ∨ tileAtN g gx gy = some .rocks
    then some ((gx : ℤ), (gy : ℤ)) else none).toFinset

/-- The tree-sprite map built during `renderTerrain`: every Forest cell
carries a tree sprite. -/
def initialTrees (g : List (List TerrainType)) (width height : ℕ) :
    Finset (ℤ × ℤ) :=
  ((List.range height).bind fun gy => (List.range width).filterMap fun gx =>
    if tileAtN g gx gy = some .forest then some ((gx : ℤ), (gy : ℤ)) else none).toFinset

/-- The world state right after `create` / `renderTerrain`, for a generated
terrain grid: Forest and Rocks cells occupied, trees on Forest cells, no
buildings, villagers, cut trees or wood. -/
def mkInitialWorld (g : List (List TerrainType)) (width height : ℕ) : World :=
  { width := width
    height := height
    terrain := g
    occupiedTiles := initialOccupied g width height
    treeMap := initialTrees g width height
    buildings := []
    buildingsMap := []
    cutTrees := []
    villagers := []
    woodCount := 0
    rng := [] }

/-- `isValidPlacement` from `src/scenes/GameScene.ts` (lines 471-497): every
cell of the `size × size` block anchored at `(gridX, gridY)` must be inside
the world, not Water, and not occupied. -/
def isValidPlacement (w : World) (gridX gridY : ℤ) (size : ℕ) : Bool :=
  (List.range size).all fun dy => (List.range size).all fun dx =>
    let checkX := gridX + dx
    let checkY := gridY + dy
    if checkX < 0 ∨ (w.width : ℤ) ≤ checkX ∨ checkY < 0 ∨ (w.height : ℤ) ≤ checkY then
      false
    else if tileAt w checkX checkY = some .water then
      false
    else if (checkX, checkY) ∈ w.occupiedTiles then
      false
    else
      true

/-- The 2×2 footprint cells of a house anchored at `(gridX, gridY)`, in the
`dy`-outer / `dx`-inner order of the loops in `placeHouse`. -/
def houseCells (gridX gridY : ℤ) : List (ℤ × ℤ) :=
  ([0, 1] : List ℤ).bind fun dy => ([0, 1] : List ℤ).map fun dx => (gridX + dx, gridY + dy)

/-- `placeHouse` from `src/scenes/GameScene.ts` (lines 502-597): re-validates,
then registers one shared building record for all four footprint cells and
marks them occupied.  (Sprite, lights, indicator and the spawn-confirmation
dialog are rendering/UI side effects outside the model; spawning is a
separate, deferred caller action.) -/
def placeHouse (gridX gridY : ℤ) (w : World) : World :=
  if isValidPlacement w gridX gridY 2 then
    let idx := w.buildings.length
    let b : Building := { btype := .house, occupied := false, gridX := gridX, gridY := gridY }
    { w with
      buildings := w.buildings ++ [b]
      buildingsMap := (houseCells gridX gridY).foldl (fun m c => mapSet m c idx) w.buildingsMap
      occupiedTiles := (houseCells gridX gridY).foldl (fun s c => insert c s) w.occupiedTiles }
  else w

/-- `placeTeepee` from `src/scenes/GameScene.ts` (lines 602-674): re-validates
with a 1×1 footprint, registers the record for its single cell and marks it
occupied. -/
def placeTeepee (gridX gridY : ℤ) (w : World) : World :=
  if isValidPlacement w gridX gridY 1 then
    let idx := w.buildings.length
    let b : Building := { btype := .teepee, occupied := false, gridX := gridX, gridY := gridY }
    { w with
      buildings := w.buildings ++ [b]
      buildingsMap := mapSet w.buildingsMap (gridX, gridY) idx
      occupiedTiles := insert (gridX, gridY) w.occupiedTiles }
  else w

/-- Membership in a `foldl`-of-`insert` accumulation of occupied cells. -/
theorem mem_foldl_insert (l : List (ℤ × ℤ)) :
    ∀ (s : Finset (ℤ × ℤ)) (a : ℤ × ℤ),
      a ∈ l.foldl (fun s c => insert c s) s ↔ a ∈ l ∨ a ∈ s := by
  induction l with
  | nil => intro s a; simp
  | cons c rest ih =>
    intro s a
    simp only [List.foldl_cons, ih, Finset.mem_insert, List.mem_cons]
    tauto

/-- `Map.set` then `Map.get` at the same key. -/
theorem lookup_mapSet_self (m : List ((ℤ × ℤ) × ℕ)) (k : ℤ × ℤ) (v : ℕ) :
    List.lookup k (mapSet m k v) = some v := by
  induction m with
  | nil => simp [mapSet, List.lookup]
  | cons e rest ih =>
    by_cases h : e.1 = k
    · simp [mapSet, h, List.lookup]
    · simp only [mapSet, if_neg h, List.lookup]
      have : (k == e.1) = false := by
        simp [beq_iff_eq]
        exact fun hk => h hk.symm
      simp [this, ih]

/-- `Map.set` then `Map.get` at a different key. -/
theorem lookup_mapSet_ne (m : List ((ℤ × ℤ) × ℕ)) (k k' : ℤ × ℤ) (v : ℕ)
    (h : k' ≠ k) : List.lookup k' (mapSet m k v) = List.lookup k' m := by
  have hkk : (k' == k) = false := by simp [beq_iff_eq, h]
  induction m with
  | nil => simp [mapSet, List.lookup, hkk]
  | cons e rest ih =>
    by_cases he : e.1 = k
    · subst he
      simp [mapSet, List.lookup, hkk]
    · simp only [mapSet, if_neg he, List.lookup]
      cases hbe : (k' == e.1) <;> simp [hbe, ih]

/-- Looking up a key after `Map.set`-ing every cell of a list to the same
building index. -/
theorem lookup_foldl_mapSet (v : ℕ) :
    ∀ (l : List (ℤ × ℤ)) (m : List ((ℤ × ℤ) × ℕ)) (c : ℤ × ℤ),
      List.lookup c (l.foldl (fun m c' => mapSet m c' v) m)
        = if c ∈ l then some v else List.lookup c m := by
  intro l
  induction l with
  | nil => intro m c; simp
  | cons c0 rest ih =>
    intro m c
    simp only [List.foldl_cons, ih, List.mem_cons]
    by_cases hr : c ∈ rest
    · simp [hr]
    · by_cases h0 : c = c0
      · subst h0
        simp [hr, lookup_mapSet_self]
      · simp [hr, h0, lookup_mapSet_ne m c0 c v h0]

/-- The single-cell placement check: the nested `if` chain of
`isValidPlacement` succeeds exactly when no rejection condition holds. -/
theorem cellCheck_eq_true (A B C : Prop) [Decidable A] [Decidable B] [Decidable C] :
    ((if A then false else if B then false else if C then false else true) = true)
      ↔ ¬A ∧ ¬B ∧ ¬C := by
  split_ifs <;> simp_all

/-- The all-Meadow 10×10 terrain of end-to-end scenario 1 (generated with
`waterThreshold = 0`, `forestThreshold = 1` and rocks draws above
`rocksChance`). -/
def allMeadowGrid : List (List TerrainType) :=
  List.replicate 10 (List.replicate 10 TerrainType.meadow)

/-- The initial world of end-to-end scenario 1. -/
def allMeadowWorld : World :=
  mkInitialWorld allMeadowGrid 10 10

/-- C2: `isValidPlacement` returns `false` exactly when some cell of the
`size × size` block anchored at `(gridX, gridY)` is out of world bounds, is
Water, or is occupied — otherwise it returns `true`; in particular, on an
all-Meadow grid `canPlace((0,0), 2)` holds, and after a house is placed at
`(0,0)`, `canPlace((1,1), 1)` fails. -/
theorem isValidPlacement_spec :
    (∀ (w : World) (gridX gridY : ℤ) (size : ℕ),
      isValidPlacement w gridX gridY size = false ↔
        ∃ dx dy : ℕ, dx < size ∧ dy < size ∧
          (gridX + dx < 0 ∨ (w.width : ℤ) ≤ gridX + dx
            ∨ gridY + dy < 0 ∨ (w.height : ℤ) ≤ gridY + dy
            ∨ tileAt w (gridX + dx) (gridY + dy) = some .water
            ∨ (gridX + dx, gridY + dy) ∈ w.occupiedTiles))
    ∧ isValidPlacement allMeadowWorld 0 0 2 = true
    ∧ isValidPlacement (placeHouse 0 0 allMeadowWorld) 1 1 1 = false := by
  refine ⟨?_, by decide, by decide⟩
  intro w gridX gridY size
  have hall : isValidPlacement w gridX gridY size = true ↔
      ∀ dy dx : ℕ, dy < size → dx < size →
        ¬(gridX + dx < 0 ∨ (w.width : ℤ) ≤ gridX + dx
            ∨ gridY + dy < 0 ∨ (w.height : ℤ) ≤ gridY + dy)
        ∧ ¬(tileAt w (gridX + dx) (gridY + dy) = some .water)
        ∧ ¬((gridX + dx, gridY + dy) ∈ w.occupiedTiles) := by
    simp only [isValidPlacement, List.all_eq_true, List.mem_range]
    constructor
    · intro h dy dx hdy hdx
      exact (cellCheck_eq_true _ _ _).1 (h dy hdy dx hdx)
    · intro h dy hdy dx hdx
      exact (cellCheck_eq_true _ _ _).2 (h dy dx hdy hdx)
  constructor
  · intro hfalse
    have hne : ¬ (isValidPlacement w gridX gridY size = true) := by simp [hfalse]
    rw [hall] at hne
    obtain ⟨dy, h1⟩ := Classical.not_forall.1 hne
    obtain ⟨dx, h2⟩ := Classical.not_forall.1 h1
    obtain ⟨hdy, h3⟩ := Classical.not_imp.1 h2
    obtain ⟨hdx, h4⟩ := Classical.not_imp.1 h3
    exact ⟨dx, dy, hdx, hdy, by tauto⟩
  · intro ⟨dx, dy, hdx, hdy, hbad⟩
    by_contra hne
    have htrue : isValidPlacement w gridX gridY size = true := by
      cases h : isValidPlacement w gridX gridY size
      · exact absurd h hne
      · rfl
    have := (hall.1 htrue) dy dx hdy hdx
    tauto

/-- C3: a successful placement marks every footprint cell occupied (2×2 for a
house, 1×1 for a teepee), registers one shared `Building` record that every
footprint cell maps to, and that record has `occupied = false` immediately
after placement. -/
theorem place_registers_footprint :
    (∀ (w : World) (gridX gridY : ℤ), isValidPlacement w gridX gridY 2 = true →
      (placeHouse gridX gridY w).buildings.get? w.buildings.length
          = some { btype := .house, occupied := false, gridX := gridX, gridY := gridY }
      ∧ ∀ c ∈ houseCells gridX gridY,
          c ∈ (placeHouse gridX gridY w).occupiedTiles
          ∧ List.lookup c (placeHouse gridX gridY w).buildingsMap
              = some w.buildings.length)
    ∧ (∀ (w : World) (gridX gridY : ℤ), isValidPlacement w gridX gridY 1 = true →
      (placeTeepee gridX gridY w).buildings.get? w.buildings.length
          = some { btype := .teepee, occupied := false, gridX := gridX, gridY := gridY }
      ∧ (gridX, gridY) ∈ (placeTeepee gridX gridY w).occupiedTiles
      ∧ List.lookup (gridX, gridY) (placeTeepee gridX gridY w).buildingsMap
          = some w.buildings.length) := by
  constructor
  · intro w gridX gridY h
    simp only [placeHouse, h, if_true]
    refine ⟨List.get?_concat_length _ _, ?_⟩
    intro c hc
    constructor
    · rw [mem_foldl_insert]
      exact Or.inl hc
    · rw [lookup_foldl_mapSet]
      simp [hc]
  · intro w gridX gridY h
    simp only [placeTeepee, h, if_true]
    exact ⟨List.get?_concat_length _ _, by simp, lookup_mapSet_self _ _ _⟩

/-- Witness for C3: placing a house at `(0,0)` and a teepee at `(5,5)` on the
all-Meadow world. -/
theorem place_registers_footprint_witness :
    ((placeHouse 0 0 allMeadowWorld).buildings.get? 0
        = some { btype := .house, occupied := false, gridX := 0, gridY := 0 }
      ∧ ∀ c ∈ houseCells 0 0,
          c ∈ (placeHouse 0 0 allMeadowWorld).occupiedTiles
          ∧ List.lookup c (placeHouse 0 0 allMeadowWorld).buildingsMap = some 0)
    ∧ ((placeTeepee 5 5 allMeadowWorld).buildings.get? 0
        = some { btype := .teepee, occupied := false, gridX := 5, gridY := 5 }
      ∧ (5, 5) ∈ (placeTeepee 5 5 allMeadowWorld).occupiedTiles
      ∧ List.lookup ((5 : ℤ), (5 : ℤ)) (placeTeepee 5 5 allMeadowWorld).buildingsMap
          = some 0) :=
  ⟨place_registers_footprint.1 allMeadowWorld 0 0 (by decide),
   place_registers_footprint.2 allMeadowWorld 5 5 (by decide)⟩

/-- C10: placing a building (house or teepee) leaves the terrain
classification of every tile unchanged, and also leaves the tree sprites, cut
trees, villagers, wood counter, world dimensions and random stream unchanged;
only the occupancy set and the building registry are modified. -/
theorem place_preserves_terrain (gridX gridY : ℤ) (w : World) :
    ((placeHouse gridX gridY w).terrain = w.terrain
      ∧ (placeHouse gridX gridY w).treeMap = w.treeMap
      ∧ (placeHouse gridX gridY w).cutTrees = w.cutTrees
      ∧ (placeHouse gridX gridY w).villagers = w.villagers
      ∧ (placeHouse gridX gridY w).woodCount = w.woodCount
      ∧ (placeHouse gridX gridY w).width = w.width
      ∧ (placeHouse gridX gridY w).height = w.height
      ∧ (placeHouse gridX gridY w).rng = w.rng)
    ∧ ((placeTeepee gridX gridY w).terrain = w.terrain
      ∧ (placeTeepee gridX gridY w).treeMap = w.treeMap
      ∧ (placeTeepee gridX gridY w).cutTrees = w.cutTrees
      ∧ (placeTeepee gridX gridY w).villagers = w.villagers
      ∧ (placeTeepee gridX gridY w).woodCount = w.woodCount
      ∧ (placeTeepee gridX gridY w).width = w.width
      ∧ (placeTeepee gridX gridY w).height = w.height
      ∧ (placeTeepee gridX gridY w).rng = w.rng) := by
  constructor
  · unfold placeHouse
    split <;> simp
  · unfold placeTeepee
    split <;> simp

/-- The body of `updateCutTrees` from `src/scenes/GameScene.ts` (lines
1079-1115), processing the record list.  The code iterates the array
backwards with `splice`; the recursion below processes the tail (the
higher-indexed records) first, accordingly.  Each record's timer accumulates
the elapsed time; once it exceeds `FOREST_TO_MEADOW_DELAY` the tile is
reclassified to Meadow, its occupancy entry released, and the record
removed.  (Redrawing the tile graphics is rendering-only.) -/
def runCutTrees (delta : ℚ) :
    List CutTree → List (List TerrainType) → Finset (ℤ × ℤ) →
      List CutTree × List (List TerrainType) × Finset (ℤ × ℤ)
  | [], ter, occ => ([], ter, occ)
  | r :: rest, ter, occ =>
    let p := runCutTrees delta rest ter occ
    if r.timer + delta > FOREST_TO_MEADOW_DELAY then
      (p.1, setTile p.2.1 r.gridX r.gridY .meadow, p.2.2.erase (r.gridX, r.gridY))
    else
      ({ r with timer := r.timer + delta } :: p.1, p.2.1, p.2.2)

/-- `updateCutTrees` from `src/scenes/GameScene.ts` applied to the world. -/
def updateCutTrees (delta : ℚ) (w : World) : World :=
  let p := runCutTrees delta w.cutTrees w.terrain w.occupiedTiles
  { w with cutTrees := p.1, terrain := p.2.1, occupiedTiles := p.2.2 }

/-- A sequence of regrowth-scheduler ticks with the given elapsed times. -/
def runSched (ds : List ℚ) (w : World) : World :=
  ds.foldl (fun w d => updateCutTrees d w) w

/-- Setting a tile that exists yields that tile on lookup. -/
theorem tileAtZ_setTile_same (g : List (List TerrainType)) (x y : ℤ)
    (t : TerrainType) (h : (tileAtZ g x y).isSome) :
    tileAtZ (setTile g x y t) x y = some t := by
  unfold tileAtZ at h ⊢
  by_cases hb : 0 ≤ x ∧ 0 ≤ y
  · rw [if_pos hb] at h
    rw [if_pos hb]
    unfold tileAtN at h
    cases hrow : g.get? y.toNat with
    | none => rw [hrow] at h; simp at h
    | some row =>
      rw [hrow] at h
      simp only [Option.some_bind] at h
      obtain ⟨a, ha⟩ := Option.isSome_iff_exists.1 h
      unfold setTile
      rw [if_pos hb, hrow]
      unfold tileAtN
      rw [List.get?_set_eq, hrow]
      simp only [Option.map_some, Option.some_bind]
      rw [List.get?_set_eq, ha]
      rfl
  · rw [if_neg hb] at h
    simp at h

/-- Setting one tile leaves every other tile's lookup unchanged. -/
theorem tileAtZ_setTile_other (g : List (List TerrainType)) (x y x' y' : ℤ)
    (t : TerrainType) (h : ¬(x' = x ∧ y' = y)) :
    tileAtZ (setTile g x y t) x' y' = tileAtZ g x' y' := by
  unfold setTile
  by_cases hb : 0 ≤ x ∧ 0 ≤ y
  · rw [if_pos hb]
    cases hrow : g.get? y.toNat with
    | none => rfl
    | some row =>
      unfold tileAtZ
      by_cases hb' : 0 ≤ x' ∧ 0 ≤ y'
      · rw [if_pos hb', if_pos hb']
        unfold tileAtN
        by_cases hy : y'.toNat = y.toNat
        · have hyy : y' = y := by omega
          have hxn : x.toNat ≠ x'.toNat := by
            have : x' ≠ x := fun hc => h ⟨hc, hyy⟩
            omega
          rw [hy, List.get?_set_eq, hrow]
          simp only [Option.map_some, Option.some_bind]
          exact List.get?_set_ne _ _ hxn
        · rw [List.get?_set_ne _ _ (fun hc => hy hc.symm)]
      · rw [if_neg hb', if_neg hb']
  · rw [if_neg hb]

/-- A tile that exists still exists after a scheduler pass. -/
theorem runCutTrees_isSome (d : ℚ) (x y : ℤ) :
    ∀ (l : List CutTree) (ter : List (List TerrainType)) (occ : Finset (ℤ × ℤ)),
      (tileAtZ ter x y).isSome →
      (tileAtZ (runCutTrees d l ter occ).2.1 x y).isSome := by
  intro l
  induction l with
  | nil => intro ter occ h; exact h
  | cons r rest ih =>
    intro ter occ h
    simp only [runCutTrees]
    split
    · by_cases hk : x = r.gridX ∧ y = r.gridY
      · obtain ⟨hx, hy⟩ := hk
        subst hx; subst hy
        rw [tileAtZ_setTile_same _ _ _ _ (ih ter occ h)]
        rfl
      · rw [tileAtZ_setTile_other _ _ _ _ _ _ hk]
        exact ih ter occ h
    · exact ih ter occ h

/-- A scheduler pass touches neither the tile, the occupancy entry, nor the
record list of a coordinate that has no pending record. -/
theorem runCutTrees_no_key (d : ℚ) (x y : ℤ) :
    ∀ (l : List CutTree) (ter : List (List TerrainType)) (occ : Finset (ℤ × ℤ)),
      (∀ r ∈ l, ¬(r.gridX = x ∧ r.gridY = y)) →
      tileAtZ (runCutTrees d l ter occ).2.1 x y = tileAtZ ter x y
      ∧ ((x, y) ∈ (runCutTrees d l ter occ).2.2 ↔ (x, y) ∈ occ)
      ∧ ∀ r ∈ (runCutTrees d l ter occ).1, ¬(r.gridX = x ∧ r.gridY = y) := by
  intro l
  induction l with
  | nil => intro ter occ _; exact ⟨rfl, Iff.rfl, by simp [runCutTrees]⟩
  | cons r rest ih =>
    intro ter occ hnk
    have hhead : ¬(r.gridX = x ∧ r.gridY = y) := hnk r (List.mem_cons_self r rest)
    have hrest := ih ter occ (fun r' hr' => hnk r' (List.mem_cons_of_mem r hr'))
    simp only [runCutTrees]
    split
    · refine ⟨?_, ?_, hrest.2.2⟩
      · rw [tileAtZ_setTile_other _ _ _ _ _ _ (fun hc => hhead ⟨hc.1.symm, hc.2.symm⟩)]
        exact hrest.1
      · rw [Finset.mem_erase]
        have hne : ((x : ℤ), (y : ℤ)) ≠ (r.gridX, r.gridY) := by
          intro hc
          exact hhead ⟨(Prod.mk.injEq _ _ _ _ ▸ hc).1.symm, (Prod.mk.injEq _ _ _ _ ▸ hc).2.symm⟩
        rw [and_iff_right hne]
        exact hrest.2.1
    · refine ⟨hrest.1, hrest.2.1, ?_⟩
      intro r' hr'
      rcases List.mem_cons.1 hr' with h | h
      · subst h; exact hhead
      · exact hrest.2.2 r' h

/-- Any record that expires in a scheduler pass leaves its tile Meadow and its
occupancy entry released, no matter how many other records (including
duplicates of the same coordinate) the list holds. -/
theorem runCutTrees_expired (d : ℚ) :
    ∀ (l : List CutTree) (ter : List (List TerrainType)) (occ : Finset (ℤ × ℤ))
      (r : CutTree), r ∈ l → r.timer + d > FOREST_TO_MEADOW_DELAY →
      (tileAtZ ter r.gridX r.gridY).isSome →
      tileAtZ (runCutTrees d l ter occ).2.1 r.gridX r.gridY = some .meadow
      ∧ (r.gridX, r.gridY) ∉ (runCutTrees d l ter occ).2.2 := by
  intro l
  induction l with
  | nil => intro ter occ r hr; exact absurd hr (List.not_mem_nil r)
  | cons r0 rest ih =>
    intro ter occ r hr hexp hsome
    rcases List.mem_cons.1 hr with h | h
    · subst h
      simp only [runCutTrees, if_pos hexp]
      constructor
      · exact tileAtZ_setTile_same _ _ _ _ (runCutTrees_isSome d _ _ rest ter occ hsome)
      · exact Finset.not_mem_erase _ _
    · have hp := ih ter occ r h hexp hsome
      simp only [runCutTrees]
      split
      · constructor
        · by_cases hk : r.gridX = r0.gridX ∧ r.gridY = r0.gridY
          · rw [hk.1, hk.2]
            refine tileAtZ_setTile_same _ _ _ _ ?_
            rw [← hk.1, ← hk.2, hp.1]
            rfl
          · rw [tileAtZ_setTile_other _ _ _ _ _ _ hk]
            exact hp.1
        · intro hc
          exact hp.2 (Finset.mem_erase.1 hc).2
      · exact hp

/-- If every pending record of a coordinate expires in this pass, no record of
that coordinate survives it. -/
theorem runCutTrees_key_gone (d : ℚ) (x y : ℤ) :
    ∀ (l : List CutTree) (ter : List (List TerrainType)) (occ : Finset (ℤ × ℤ)),
      (∀ r ∈ l, r.gridX = x ∧ r.gridY = y → r.timer + d > FOREST_TO_MEADOW_DELAY) →
      ∀ r ∈ (runCutTrees d l ter occ).1, ¬(r.gridX = x ∧ r.gridY = y) := by
  intro l
  induction l with
  | nil => intro ter occ _; simp [runCutTrees]
  | cons r0 rest ih =>
    intro ter occ hall
    have hrest := ih ter occ (fun r' hr' => hall r' (List.mem_cons_of_mem r0 hr'))
    simp only [runCutTrees]
    split
    · exact hrest
    · intro r' hr'
      rcases List.mem_cons.1 hr' with h | h
      · subst h
        intro hk
        rename_i hnexp
        exact hnexp (hall r0 (List.mem_cons_self r0 rest) hk)
      · exact hrest r' h

/-- A pending record that does not expire in this pass is kept with its timer
advanced, and its tile and occupancy entry are untouched (given that it is
the only record of its coordinate). -/
theorem runCutTrees_kept (d : ℚ) (x y : ℤ) (t : ℚ) :
    ∀ (l : List CutTree) (ter : List (List TerrainType)) (occ : Finset (ℤ × ℤ)),
      (⟨x, y, t⟩ : CutTree) ∈ l →
      (∀ r ∈ l, r.gridX = x ∧ r.gridY = y → r = ⟨x, y, t⟩) →
      ¬(t + d > FOREST_TO_MEADOW_DELAY) →
      tileAtZ (runCutTrees d l ter occ).2.1 x y = tileAtZ ter x y
      ∧ ((x, y) ∈ (runCutTrees d l ter occ).2.2 ↔ (x, y) ∈ occ)
      ∧ (⟨x, y, t + d⟩ : CutTree) ∈ (runCutTrees d l ter occ).1
      ∧ (∀ r ∈ (runCutTrees d l ter occ).1,
          r.gridX = x ∧ r.gridY = y → r = ⟨x, y, t + d⟩) := by
  intro l
  induction l with
  | nil => intro ter occ hmem; exact absurd hmem (List.not_mem_nil _)
  | cons r0 rest ih =>
    intro ter occ hmem huniq hnexp
    by_cases hk : r0.gridX = x ∧ r0.gridY = y
    · have hr0 : r0 = ⟨x, y, t⟩ := huniq r0 (List.mem_cons_self r0 rest) hk
      subst hr0
      simp only [runCutTrees, if_neg hnexp]
      by_cases hrest : (⟨x, y, t⟩ : CutTree) ∈ rest
      · have hp := ih ter occ hrest
          (fun r' hr' => huniq r' (List.mem_cons_of_mem _ hr')) hnexp
        refine ⟨hp.1, hp.2.1, List.mem_cons_self _ _ , ?_⟩
        intro r' hr' hk'
        rcases List.mem_cons.1 hr' with h | h
        · exact h
        · exact hp.2.2.2 r' h hk'
      · have hnk : ∀ r' ∈ rest, ¬(r'.gridX = x ∧ r'.gridY = y) := by
          intro r' hr' hk'
          exact hrest (huniq r' (List.mem_cons_of_mem _ hr') hk' ▸ hr')
        have hp := runCutTrees_no_key d x y rest ter occ hnk
        refine ⟨hp.1, hp.2.1, List.mem_cons_self _ _, ?_⟩
        intro r' hr' hk'
        rcases List.mem_cons.1 hr' with h | h
        · exact h
        · exact absurd hk' (hp.2.2 r' h)
    · have hmem' : (⟨x, y, t⟩ : CutTree) ∈ rest := by
        rcases List.mem_cons.1 hmem with h | h
        · exact absurd ⟨congrArg CutTree.gridX h.symm, congrArg CutTree.gridY h.symm⟩ hk
        · exact h
      have hp := ih ter occ hmem'
        (fun r' hr' => huniq r' (List.mem_cons_of_mem _ hr')) hnexp
      simp only [runCutTrees]
      split
      · refine ⟨?_, ?_, hp.2.2.1, hp.2.2.2⟩
        · rw [tileAtZ_setTile_other _ _ _ _ _ _ (fun hc => hk ⟨hc.1.symm, hc.2.symm⟩)]
          exact hp.1
        · rw [Finset.mem_erase]
          have hne : ((x : ℤ), (y : ℤ)) ≠ (r0.gridX, r0.gridY) := by
            intro hc
            exact hk ⟨(Prod.mk.injEq _ _ _ _ ▸ hc).1.symm, (Prod.mk.injEq _ _ _ _ ▸ hc).2.symm⟩
          rw [and_iff_right hne]
          exact hp.2.1
      · refine ⟨hp.1, hp.2.1, List.mem_cons_of_mem _ hp.2.2.1, ?_⟩
        intro r' hr' hk'
        rcases List.mem_cons.1 hr' with h | h
        · subst h
          exact absurd hk' hk
        · exact hp.2.2.2 r' h hk'

@[simp] theorem updateCutTrees_terrain (d : ℚ) (w : World) :
    (updateCutTrees d w).terrain = (runCutTrees d w.cutTrees w.terrain w.occupiedTiles).2.1 := rfl

@[simp] theorem updateCutTrees_occupiedTiles (d : ℚ) (w : World) :
    (updateCutTrees d w).occupiedTiles
      = (runCutTrees d w.cutTrees w.terrain w.occupiedTiles).2.2 := rfl

@[simp] theorem updateCutTrees_cutTrees (d : ℚ) (w : World) :
    (updateCutTrees d w).cutTrees = (runCutTrees d w.cutTrees w.terrain w.occupiedTiles).1 := rfl

@[simp] theorem runSched_nil (w : World) : runSched [] w = w := rfl

@[simp] theorem runSched_cons (d : ℚ) (ds : List ℚ) (w : World) :
    runSched (d :: ds) w = runSched ds (updateCutTrees d w) := rfl

/-- A whole scheduler run touches neither the tile, the occupancy entry, nor
the records of a coordinate that has no pending record. -/
theorem runSched_no_key (x y : ℤ) :
    ∀ (ds : List ℚ) (w : World),
      (∀ r ∈ w.cutTrees, ¬(r.gridX = x ∧ r.gridY = y)) →
      tileAt (runSched ds w) x y = tileAt w x y
      ∧ ((x, y) ∈ (runSched ds w).occupiedTiles ↔ (x, y) ∈ w.occupiedTiles)
      ∧ ∀ r ∈ (runSched ds w).cutTrees, ¬(r.gridX = x ∧ r.gridY = y) := by
  intro ds
  induction ds with
  | nil => intro w hnk; exact ⟨rfl, Iff.rfl, hnk⟩
  | cons d ds ih =>
    intro w hnk
    have hstep := runCutTrees_no_key d x y w.cutTrees w.terrain w.occupiedTiles hnk
    have hrest := ih (updateCutTrees d w) (by simpa using hstep.2.2)
    rw [runSched_cons]
    refine ⟨?_, ?_, hrest.2.2⟩
    · rw [hrest.1]
      show tileAtZ (updateCutTrees d w).terrain x y = tileAt w x y
      rw [updateCutTrees_terrain]
      exact hstep.1
    · rw [hrest.2.1, updateCutTrees_occupiedTiles]
      exact hstep.2.1

/-- The tracked lifecycle of a single pending record (unique for its
coordinate) across a scheduler run: while the accumulated elapsed time stays
at or below the delay nothing happens except the timer advancing; as soon as
it exceeds the delay the tile is Meadow, released, and the record gone. -/
theorem runSched_tracked (x y : ℤ) :
    ∀ (ds : List ℚ) (w : World) (t : ℚ),
      (∀ d ∈ ds, 0 ≤ d) → 0 ≤ t → t ≤ FOREST_TO_MEADOW_DELAY →
      (⟨x, y, t⟩ : CutTree) ∈ w.cutTrees →
      (∀ r ∈ w.cutTrees, r.gridX = x ∧ r.gridY = y → r = ⟨x, y, t⟩) →
      (tileAt w x y).isSome →
      if t + ds.sum ≤ FOREST_TO_MEADOW_DELAY then
        tileAt (runSched ds w) x y = tileAt w x y
        ∧ ((x, y) ∈ (runSched ds w).occupiedTiles ↔ (x, y) ∈ w.occupiedTiles)
        ∧ (⟨x, y, t + ds.sum⟩ : CutTree) ∈ (runSched ds w).cutTrees
        ∧ ∀ r ∈ (runSched ds w).cutTrees,
            r.gridX = x ∧ r.gridY = y → r = ⟨x, y, t + ds.sum⟩
      else
        tileAt (runSched ds w) x y = some .meadow
        ∧ (x, y) ∉ (runSched ds w).occupiedTiles
        ∧ ∀ r ∈ (runSched ds w).cutTrees, ¬(r.gridX = x ∧ r.gridY = y) := by
  intro ds
  induction ds with
  | nil =>
    intro w t _ _ ht5 hmem huniq _
    rw [List.sum_nil, add_zero, if_pos ht5]
    exact ⟨rfl, Iff.rfl, hmem, huniq⟩
  | cons d ds ih =>
    intro w t hds ht0 ht5 hmem huniq hsome
    have hd0 : 0 ≤ d := hds d (List.mem_cons_self d ds)
    have hds' : ∀ d' ∈ ds, 0 ≤ d' := fun d' hd' => hds d' (List.mem_cons_of_mem d hd')
    have hsum0 : 0 ≤ ds.sum := List.sum_nonneg hds'
    rw [List.sum_cons, runSched_cons]
    by_cases hexp : t + d > FOREST_TO_MEADOW_DELAY
    · rw [if_neg (by linarith)]
      have hstep := runCutTrees_expired d w.cutTrees w.terrain w.occupiedTiles
        ⟨x, y, t⟩ hmem hexp hsome
      have hgone := runCutTrees_key_gone d x y w.cutTrees w.terrain w.occupiedTiles
        (fun r hr hk => by rw [huniq r hr hk]; exact hexp)
      have hrest := runSched_no_key x y ds (updateCutTrees d w) (by simpa using hgone)
      refine ⟨?_, ?_, hrest.2.2⟩
      · rw [hrest.1]
        show tileAtZ (updateCutTrees d w).terrain x y = some .meadow
        rw [updateCutTrees_terrain]
        exact hstep.1
      · intro hc
        exact hstep.2 ((hrest.2.1).1 hc)
    · have hstep := runCutTrees_kept d x y t w.cutTrees w.terrain w.occupiedTiles
        hmem huniq hexp
      have hsome1 : (tileAt (updateCutTrees d w) x y).isSome := by
        show (tileAtZ (updateCutTrees d w).terrain x y).isSome
        rw [updateCutTrees_terrain, hstep.1]
        exact hsome
      have hrec := ih (updateCutTrees d w) (t + d) hds' (by linarith)
        (by linarith) (by simpa using hstep.2.2.1) (by simpa using hstep.2.2.2) hsome1
      have hassoc : t + (d + ds.sum) = t + d + ds.sum := by ring
      rw [hassoc]
      split_ifs with hc
      · rw [if_pos hc] at hrec
        refine ⟨?_, ?_, hrec.2.2.1, hrec.2.2.2⟩
        · rw [hrec.1]
          show tileAtZ (updateCutTrees d w).terrain x y = tileAt w x y
          rw [updateCutTrees_terrain]
          exact hstep.1
        · rw [hrec.2.1, updateCutTrees_occupiedTiles]
          exact hstep.2.1
      · rw [if_neg hc] at hrec
        exact hrec

/-- C6: for a `CutTreeRecord` (unique for its tile) created with timer `0`,
running the regrowth scheduler over any sequence of nonnegative elapsed
times reclassifies the tile to Meadow, releases its occupancy entry, and
removes the record exactly when the accumulated elapsed time first exceeds
`FOREST_TO_MEADOW_DELAY`; while the accumulated time is still at or below
the delay, the tile's classification, its occupancy entry, and the record
(timer advanced) are all unchanged. -/
theorem cutTreeRecord_regrowth (w : World) (x y : ℤ) (ds : List ℚ)
    (hds : ∀ d ∈ ds, 0 ≤ d)
    (hmem : (⟨x, y, 0⟩ : CutTree) ∈ w.cutTrees)
    (huniq : ∀ r ∈ w.cutTrees, r.gridX = x ∧ r.gridY = y → r = ⟨x, y, 0⟩)
    (hsome : (tileAt w x y).isSome) :
    if ds.sum ≤ FOREST_TO_MEADOW_DELAY then
      tileAt (runSched ds w) x y = tileAt w x y
      ∧ ((x, y) ∈ (runSched ds w).occupiedTiles ↔ (x, y) ∈ w.occupiedTiles)
      ∧ (⟨x, y, ds.sum⟩ : CutTree) ∈ (runSched ds w).cutTrees
    else
      tileAt (runSched ds w) x y = some .meadow
      ∧ (x, y) ∉ (runSched ds w).occupiedTiles
      ∧ ∀ r ∈ (runSched ds w).cutTrees, ¬(r.gridX = x ∧ r.gridY = y) := by
  have h := runSched_tracked x y ds w 0 hds le_rfl
    (by norm_num [FOREST_TO_MEADOW_DELAY]) hmem huniq hsome
  rw [zero_add] at h
  split_ifs at h ⊢ with hc
  · exact ⟨h.1, h.2.1, h.2.2.1⟩
  · exact h

/-- The 5×5 terrain with a single Forest tile at `(2,2)` used as a concrete
regrowth scenario. -/
def regrowGrid : List (List TerrainType) :=
  (List.replicate 5 (List.replicate 5 TerrainType.meadow)).set 2
    ((List.replicate 5 TerrainType.meadow).set 2 .forest)

/-- A world in which the tree at `(2,2)` has just been harvested: one pending
record with timer `0`. -/
def regrowWorld : World :=
  { mkInitialWorld regrowGrid 5 5 with cutTrees := [⟨2, 2, 0⟩] }

/-- Witness for C6: the single record at `(2,2)` with one 6000 ms tick. -/
theorem cutTreeRecord_regrowth_witness :
    if List.sum [(6000 : ℚ)] ≤ FOREST_TO_MEADOW_DELAY then
      tileAt (runSched [6000] regrowWorld) 2 2 = tileAt regrowWorld 2 2
      ∧ ((2, 2) ∈ (runSched [6000] regrowWorld).occupiedTiles
          ↔ (2, 2) ∈ regrowWorld.occupiedTiles)
      ∧ (⟨2, 2, List.sum [(6000 : ℚ)]⟩ : CutTree) ∈ (runSched [6000] regrowWorld).cutTrees
    else
      tileAt (runSched [6000] regrowWorld) 2 2 = some .meadow
      ∧ (2, 2) ∉ (runSched [6000] regrowWorld).occupiedTiles
      ∧ ∀ r ∈ (runSched [6000] regrowWorld).cutTrees, ¬(r.gridX = 2 ∧ r.gridY = 2) :=
  cutTreeRecord_regrowth regrowWorld 2 2 [6000]
    (by intro d hd; rw [List.mem_singleton] at hd; rw [hd]; norm_num)
    (by simp [regrowWorld])
    (by intro r hr _; simpa [regrowWorld] using hr)
    (by decide)

/-- C8 (amended): records are keyed by coordinates but uniqueness is not
enforced — two live records may share a coordinate; duplicates are benign
because conversion and release are idempotent: any record that expires in a
scheduler tick leaves its tile Meadow and its occupancy entry released, no
matter how many other records share its coordinate. -/
theorem cutTree_duplicates_benign (w : World) (d : ℚ) (r : CutTree)
    (hmem : r ∈ w.cutTrees) (hexp : r.timer + d > FOREST_TO_MEADOW_DELAY)
    (hsome : (tileAt w r.gridX r.gridY).isSome) :
    tileAt (updateCutTrees d w) r.gridX r.gridY = some .meadow
    ∧ (r.gridX, r.gridY) ∉ (updateCutTrees d w).occupiedTiles :=
  runCutTrees_expired d w.cutTrees w.terrain w.occupiedTiles r hmem hexp hsome

/-- A world holding two simultaneously pending records for the same tile
`(2,2)` (as arises when two lumberjacks finish harvesting the same
still-Forest-classified tile). -/
def dupRecordWorld : World :=
  { mkInitialWorld regrowGrid 5 5 with cutTrees := [⟨2, 2, 4500⟩, ⟨2, 2, 100⟩] }

/-- Witness for C8 (amended): the older of two duplicate records expires. -/
theorem cutTree_duplicates_benign_witness :
    tileAt (updateCutTrees 1000 dupRecordWorld) 2 2 = some .meadow
    ∧ ((2 : ℤ), (2 : ℤ)) ∉ (updateCutTrees 1000 dupRecordWorld).occupiedTiles :=
  cutTree_duplicates_benign dupRecordWorld 1000 ⟨2, 2, 4500⟩
    (by simp [dupRecordWorld])
    (by norm_num [FOREST_TO_MEADOW_DELAY])
    (by decide)

/-- One draw from the ambient `Phaser.Math.Between` stream. -/
def drawInt (w : World) : ℤ × World :=
  (w.rng.headD 0, { w with rng := w.rng.tail })

/-- `findNearestForest` from `src/scenes/GameScene.ts` (lines 765-780): full
row-major grid scan keeping the Forest tile of smallest Manhattan distance,
earliest-scanned on ties (strict `<` update). -/
def findNearestForest (w : World) (fromX fromY : ℤ) : Option (ℤ × ℤ) :=
  let best := (List.range w.height).foldl (fun acc gy =>
    (List.range w.width).foldl (fun acc gx =>
      if tileAtN w.terrain gx gy = some .forest then
        let dist := ((gx : ℤ) - fromX).natAbs + ((gy : ℤ) - fromY).natAbs
        match acc with
        | none => some ((gx : ℤ), (gy : ℤ), dist)
        | some b => if dist < b.2.2 then some ((gx : ℤ), (gy : ℤ), dist) else acc
      else acc) acc) (none : Option (ℤ × ℤ × ℕ))
  best.map fun b => (b.1, b.2.1)

/-- `findEmptyBuilding` from `src/scenes/GameScene.ts` (lines 914-932):
iterate `buildingsMap` entries in insertion order, keeping the unoccupied
house/teepee cell of smallest Manhattan distance (strict `<` update). -/
def findEmptyBuilding (w : World) (gridX gridY : ℤ) : Option (ℤ × ℤ) :=
  let best := w.buildingsMap.foldl (fun acc e =>
    match w.buildings.get? e.2 with
    | some b =>
      if ¬ b.occupied ∧ (b.btype = .house ∨ b.btype = .teepee) then
        let dist := (e.1.1 - gridX).natAbs + (e.1.2 - gridY).natAbs
        match acc with
        | none => some (e.1, dist)
        | some bb => if dist < bb.2 then some (e.1, dist) else acc
      else acc
    | none => acc) (none : Option ((ℤ × ℤ) × ℕ))
  best.map fun bb => bb.1

/-- The 3×3 scan order of `checkNearbyBuildings`: `dy` outer from `-1` to
`1`, `dx` inner, first hit wins. -/
def scanOffsets : List (ℤ × ℤ) :=
  ([-1, 0, 1] : List ℤ).bind fun dy => ([-1, 0, 1] : List ℤ).map fun dx => (dx, dy)

/-- The scan of `checkNearbyBuildings` (`src/scenes/GameScene.ts`, lines
948-962): the first (in scan order) unoccupied house/teepee registered within
the 3×3 neighbourhood of the villager's current grid cell, paired with its
index. -/
noncomputable def scanForEmptyBuilding (w : World) (v : Villager) : Option (ℕ × Building) :=
  let g := screenToGrid v.x (v.y - TILE_HEIGHT)
  scanOffsets.findSome? fun off =>
    match List.lookup (g.1 + off.1, g.2 + off.2) w.buildingsMap with
    | some i =>
      match w.buildings.get? i with
      | some b =>
        if ¬ b.occupied ∧ (b.btype = .house ∨ b.btype = .teepee) then some (i, b) else none
      | none => none
    | none => none

/-- `checkNearbyBuildings` from `src/scenes/GameScene.ts` (lines 937-988): if
an unoccupied house/teepee is registered within the 3×3 neighbourhood of the
villager's current grid cell, claim it — mark it occupied, convert the
villager's role to the building's type, rebind its home position to the
building and reset its state to Walking. -/
noncomputable def checkNearbyBuildings (w : World) (v : Villager) : World × Villager :=
  match scanForEmptyBuilding w v with
  | some ib =>
    let p := gridToScreen ((ib.2.gridX : ℝ) + 1 / 2) ((ib.2.gridY : ℝ) + 1 / 2)
    ({ w with buildings := w.buildings.set ib.1 { ib.2 with occupied := true } },
     { v with vtype := ib.2.btype, homeX := p.1, homeY := p.2 + TILE_HEIGHT,
              state := .walking })
  | none => (w, v)

/-- `spawnVillager` from `src/scenes/GameScene.ts` (lines 679-760): create a
villager at the centre of `(gridX, gridY)`, mark the building there (if any)
occupied for house/teepee spawns, and target the nearest forest (house
spawns) or a random wander offset (other spawns). -/
noncomputable def spawnVillager (gridX gridY : ℤ) (btype : BuildingType) (w : World) : World :=
  let sp := gridToScreen ((gridX : ℝ) + 1 / 2) ((gridY : ℝ) + 1 / 2)
  let x := sp.1
  let y := sp.2
  let w1 :=
    match List.lookup (gridX, gridY) w.buildingsMap with
    | some i =>
      match w.buildings.get? i with
      | some b =>
        if btype = .house ∨ btype = .teepee then
          { w with buildings := w.buildings.set i { b with occupied := true } }
        else w
      | none => w
    | none => w
  let r : ℝ × ℝ × ℤ × ℤ × World :=
    if btype = .house then
      match findNearestForest w1 gridX gridY with
      | some f =>
        let fs := gridToScreen ((f.1 : ℝ) + 1 / 2) ((f.2 : ℝ) + 1 / 2)
        (fs.1, fs.2 + TILE_HEIGHT, f.1, f.2, w1)
      | none => (x, y + TILE_HEIGHT, gridX, gridY, w1)
    else
      let d1 := drawInt w1
      let d2 := drawInt d1.2
      let ws := gridToScreen (((gridX + d1.1 : ℤ) : ℝ)) (((gridY + d2.1 : ℤ) : ℝ))
      (ws.1, ws.2 + TILE_HEIGHT, gridX + d1.1, gridY + d2.1, d2.2)
  let w2 := r.2.2.2.2
  { w2 with villagers := w2.villagers ++ [{
      x := x
      y := y + TILE_HEIGHT
      vtype := btype
      state := .walking
      targetX := r.1
      targetY := r.2.1
      targetGridX := r.2.2.1
      targetGridY := r.2.2.2.1
      homeX := x
      homeY := y + TILE_HEIGHT
      speed := VILLAGER_SPEED
      animFrame := 0
      animTimer := 0
      workTimer := 0
      hasWood := false
      assignedBuilding := none }] }

/-- The animation sub-step of the villager update (lines 788-796): while
Walking, the animation timer accumulates and the frame index alternates once
it exceeds `VILLAGER_ANIM_INTERVAL`. -/
noncomputable def animStep (delta : ℚ) (v : Villager) : Villager :=
  if v.state = .walking then
    let t := v.animTimer + delta
    if t > VILLAGER_ANIM_INTERVAL then
      { v with animTimer := 0, animFrame := (v.animFrame + 1) % 2 }
    else
      { v with animTimer := t }
  else v

/-- The Working branch of the villager update (lines 799-828): the work timer
accumulates; on exceeding `TREE_WORK_DURATION` the tree sprite of the target
tile is removed, a `CutTree` record with timer `0` is appended, the villager
picks up wood, targets home and returns to Walking.  The code `continue`s
afterwards, so this branch produces the final result of the body. -/
noncomputable def workingStep (delta : ℚ) (w : World) (v1 : Villager) : World × Villager :=
  let wt := v1.workTimer + delta
  if wt > TREE_WORK_DURATION then
    let w2 := { w with
      treeMap := w.treeMap.erase (v1.targetGridX, v1.targetGridY)
      cutTrees := w.cutTrees ++ [⟨v1.targetGridX, v1.targetGridY, 0⟩] }
    (w2, { v1 with workTimer := 0, state := .walking, hasWood := true,
                   targetX := v1.homeX, targetY := v1.homeY })
  else
    (w, { v1 with workTimer := wt })

/-- The arrival transitions of the villager update (lines 836-879), fired
when the distance to the target is below 5 px: a house villager at home
(within 10 px) delivers carried wood and re-targets the nearest forest; a
house villager elsewhere starts working; any other villager picks a random
wander target. -/
noncomputable def arriveStep (w : World) (v1 : Villager) : World × Villager :=
  if v1.vtype = .house then
    if |v1.x - v1.homeX| < 10 then
      let wv :=
        if v1.hasWood then
          ({ w with woodCount := w.woodCount + WOOD_PER_DELIVERY },
           { v1 with hasWood := false })
        else (w, v1)
      let g := screenToGrid wv.2.x (wv.2.y - TILE_HEIGHT)
      match findNearestForest wv.1 g.1 g.2 with
      | some f =>
        let fs := gridToScreen ((f.1 : ℝ) + 1 / 2) ((f.2 : ℝ) + 1 / 2)
        (wv.1, { wv.2 with targetX := fs.1, targetY := fs.2 + TILE_HEIGHT,
                           targetGridX := f.1, targetGridY := f.2 })
      | none => wv
    else
      (w, { v1 with state := .working, workTimer := 0 })
  else
    let g := screenToGrid v1.x (v1.y - TILE_HEIGHT)
    let d1 := drawInt w
    let d2 := drawInt d1.2
    let ws := gridToScreen (((g.1 + d1.1 : ℤ) : ℝ)) (((g.2 + d2.1 : ℤ) : ℝ))
    (d2.2, { v1 with targetX := ws.1, targetY := ws.2 + TILE_HEIGHT })

/-- The movement sub-step of the villager update (lines 831-888): while
Walking, either fire an arrival transition (distance below 5 px) or move one
`speed` step along the straight line towards the target. -/
noncomputable def moveStep (w : World) (v1 : Villager) : World × Villager :=
  if v1.state = .walking then
    let dx := v1.targetX - v1.x
    let dy := v1.targetY - v1.y
    let distance := Real.sqrt (dx ^ 2 + dy ^ 2)
    if distance < 5 then
      arriveStep w v1
    else
      (w, { v1 with x := v1.x + dx / distance * v1.speed,
                    y := v1.y + dy / distance * v1.speed })
  else (w, v1)

/-- The homing sub-step of the villager update (lines 890-907): for Walking
or Idle villagers, manually spawned `villager`-type agents without an
assigned building re-target the nearest empty building, and then
`checkNearbyBuildings` may claim an adjacent unoccupied building. -/
noncomputable def homingStep (w : World) (v : Villager) : World × Villager :=
  if v.state = .walking ∨ v.state = .idle then
    let v4 :=
      if v.vtype = .villager ∧ v.assignedBuilding = none then
        match findEmptyBuilding w v.targetGridX v.targetGridY with
        | some e =>
          let p := gridToScreen ((e.1 : ℝ) + 1 / 2) ((e.2 : ℝ) + 1 / 2)
          { v with targetX := p.1, targetY := p.2 + TILE_HEIGHT }
        | none => v
      else v
    checkNearbyBuildings w v4
  else
    (w, v)

/-- The per-villager body of `updateVillagers` from `src/scenes/GameScene.ts`
(lines 786-908): animation, then either the Working branch (which `continue`s
past the rest) or movement followed by the homing check. -/
noncomputable def updateVillager (delta : ℚ) (w : World) (v : Villager) : World × Villager :=
  let v1 := animStep delta v
  if v1.state = .working then
    workingStep delta w v1
  else
    let mv := moveStep w v1
    homingStep mv.1 mv.2

@[simp] theorem animStep_state (d : ℚ) (v : Villager) : (animStep d v).state = v.state := by
  simp only [animStep]; split_ifs <;> rfl

@[simp] theorem animStep_x (d : ℚ) (v : Villager) : (animStep d v).x = v.x := by
  simp only [animStep]; split_ifs <;> rfl

@[simp] theorem animStep_y (d : ℚ) (v : Villager) : (animStep d v).y = v.y := by
  simp only [animStep]; split_ifs <;> rfl

@[simp] theorem animStep_vtype (d : ℚ) (v : Villager) : (animStep d v).vtype = v.vtype := by
  simp only [animStep]; split_ifs <;> rfl

@[simp] theorem animStep_targetX (d : ℚ) (v : Villager) :
    (animStep d v).targetX = v.targetX := by
  simp only [animStep]; split_ifs <;> rfl

@[simp] theorem animStep_targetY (d : ℚ) (v : Villager) :
    (animStep d v).targetY = v.targetY := by
  simp only [animStep]; split_ifs <;> rfl

@[simp] theorem animStep_targetGridX (d : ℚ) (v : Villager) :
    (animStep d v).targetGridX = v.targetGridX := by
  simp only [animStep]; split_ifs <;> rfl

@[simp] theorem animStep_targetGridY (d : ℚ) (v : Villager) :
    (animStep d v).targetGridY = v.targetGridY := by
  simp only [animStep]; split_ifs <;> rfl

@[simp] theorem animStep_homeX (d : ℚ) (v : Villager) : (animStep d v).homeX = v.homeX := by
  simp only [animStep]; split_ifs <;> rfl

@[simp] theorem animStep_homeY (d : ℚ) (v : Villager) : (animStep d v).homeY = v.homeY := by
  simp only [animStep]; split_ifs <;> rfl

@[simp] theorem animStep_speed (d : ℚ) (v : Villager) : (animStep d v).speed = v.speed := by
  simp only [animStep]; split_ifs <;> rfl

@[simp] theorem animStep_workTimer (d : ℚ) (v : Villager) :
    (animStep d v).workTimer = v.workTimer := by
  simp only [animStep]; split_ifs <;> rfl

@[simp] theorem animStep_hasWood (d : ℚ) (v : Villager) :
    (animStep d v).hasWood = v.hasWood := by
  simp only [animStep]; split_ifs <;> rfl

@[simp] theorem animStep_assignedBuilding (d : ℚ) (v : Villager) :
    (animStep d v).assignedBuilding = v.assignedBuilding := by
  simp only [animStep]; split_ifs <;> rfl

theorem animStep_not_walking (d : ℚ) (v : Villager) (h : ¬ v.state = .walking) :
    animStep d v = v := by
  unfold animStep; rw [if_neg h]

theorem updateVillager_of_working (d : ℚ) (w : World) (v : Villager)
    (h : v.state = .working) :
    updateVillager d w v = workingStep d w v := by
  unfold updateVillager
  rw [animStep_not_walking d v (by rw [h]; simp)]
  rw [if_pos h]

theorem updateVillager_of_not_working (d : ℚ) (w : World) (v : Villager)
    (h : ¬ v.state = .working) :
    updateVillager d w v
      = homingStep (moveStep w (animStep d v)).1 (moveStep w (animStep d v)).2 := by
  unfold updateVillager
  rw [if_neg (by rw [animStep_state]; exact h)]

/-- `updateVillagers` from `src/scenes/GameScene.ts`: update every villager
in order, threading the shared world state. -/
noncomputable def updateVillagers (delta : ℚ) (w : World) : World :=
  let p := w.villagers.foldl (fun acc v =>
    let r := updateVillager delta acc.1 v
    (r.1, acc.2 ++ [r.2])) (w, ([] : List Villager))
  { p.1 with villagers := p.2 }

/-- One tick of `GameScene.update` restricted to the simulation core: villager
updates, then cut-tree regrowth (lines 1037-1040). -/
noncomputable def tick (delta : ℚ) (w : World) : World :=
  updateCutTrees delta (updateVillagers delta w)

/-- A sequence of ticks with the given elapsed-time deltas. -/
noncomputable def runTicks (ds : List ℚ) (w : World) : World :=
  ds.foldl (fun w d => tick d w) w

/-- C5: an agent in the Working state never moves during the tick; on the
tick where its work timer (incremented by the elapsed delta) exceeds
`TREE_WORK_DURATION`, the tree sprite of its target tile is removed, a
`CutTree` record with timer `0` is appended for the target coordinate,
`hasWood` becomes true, the movement target is reset to the home position and
the state returns to Walking; on any earlier tick only the work timer
advances and the world is untouched. -/
theorem villager_working_tick (delta : ℚ) (w : World) (v : Villager)
    (h : v.state = .working) :
    (updateVillager delta w v).2.x = v.x
    ∧ (updateVillager delta w v).2.y = v.y
    ∧ (v.workTimer + delta > TREE_WORK_DURATION →
        (updateVillager delta w v).2.state = .walking
        ∧ (updateVillager delta w v).2.hasWood = true
        ∧ (updateVillager delta w v).2.workTimer = 0
        ∧ (updateVillager delta w v).2.targetX = v.homeX
        ∧ (updateVillager delta w v).2.targetY = v.homeY
        ∧ (updateVillager delta w v).1.treeMap
            = w.treeMap.erase (v.targetGridX, v.targetGridY)
        ∧ (updateVillager delta w v).1.cutTrees
            = w.cutTrees ++ [⟨v.targetGridX, v.targetGridY, 0⟩])
    ∧ (¬(v.workTimer + delta > TREE_WORK_DURATION) →
        (updateVillager delta w v).1 = w
        ∧ (updateVillager delta w v).2 = { v with workTimer := v.workTimer + delta }
        ∧ (updateVillager delta w v).2.state = .working) := by
  rw [updateVillager_of_working delta w v h]
  unfold workingStep
  by_cases hw : v.workTimer + delta > TREE_WORK_DURATION
  · simp [hw]
  · simp [hw, h]

/-- A concrete lumberjack mid-harvest, used as witness input. -/
noncomputable def workerV : Villager :=
  { x := 0, y := 208, vtype := .house, state := .working, targetX := 0, targetY := 208,
    targetGridX := 2, targetGridY := 2, homeX := -64, homeY := 208, speed := 1,
    animFrame := 0, animTimer := 0, workTimer := 0, hasWood := false,
    assignedBuilding := none }

/-- Witness for C5: a Working villager with a 3000 ms tick (which crosses the
2000 ms work duration). -/
theorem villager_working_tick_witness :
    (updateVillager 3000 allMeadowWorld workerV).2.x = workerV.x
    ∧ (updateVillager 3000 allMeadowWorld workerV).2.y = workerV.y
    ∧ (workerV.workTimer + 3000 > TREE_WORK_DURATION →
        (updateVillager 3000 allMeadowWorld workerV).2.state = .walking
        ∧ (updateVillager 3000 allMeadowWorld workerV).2.hasWood = true
        ∧ (updateVillager 3000 allMeadowWorld workerV).2.workTimer = 0
        ∧ (updateVillager 3000 allMeadowWorld workerV).2.targetX = workerV.homeX
        ∧ (updateVillager 3000 allMeadowWorld workerV).2.targetY = workerV.homeY
        ∧ (updateVillager 3000 allMeadowWorld workerV).1.treeMap
            = allMeadowWorld.treeMap.erase (workerV.targetGridX, workerV.targetGridY)
        ∧ (updateVillager 3000 allMeadowWorld workerV).1.cutTrees
            = allMeadowWorld.cutTrees ++ [⟨workerV.targetGridX, workerV.targetGridY, 0⟩])
    ∧ (¬(workerV.workTimer + 3000 > TREE_WORK_DURATION) →
        (updateVillager 3000 allMeadowWorld workerV).1 = allMeadowWorld
        ∧ (updateVillager 3000 allMeadowWorld workerV).2
            = { workerV with workTimer := workerV.workTimer + 3000 }
        ∧ (updateVillager 3000 allMeadowWorld workerV).2.state = .working) :=
  villager_working_tick 3000 allMeadowWorld workerV rfl

/-- The delivery-event condition of the arrived-home branch, for a
single-lumberjack world: the lone villager is Walking, of house role, within
the 5 px arrival radius of its target, within the 10 px home radius, and
carrying wood. -/
def isDeliveryState (w : World) : Prop :=
  match w.villagers with
  | [v] => v.state = .walking ∧ v.vtype = .house
      ∧ Real.sqrt ((v.targetX - v.x) ^ 2 + (v.targetY - v.y) ^ 2) < 5
      ∧ |v.x - v.homeX| < 10 ∧ v.hasWood = true
  | _ => False

open Classical in
/-- The number of ticks of a run whose pre-state satisfies the delivery
condition. -/
noncomputable def countDeliveries : List ℚ → World → ℕ
  | [], _ => 0
  | d :: ds, w => (if isDeliveryState w then 1 else 0) + countDeliveries ds (tick d w)

@[simp] theorem updateCutTrees_villagers (d : ℚ) (w : World) :
    (updateCutTrees d w).villagers = w.villagers := rfl

@[simp] theorem updateCutTrees_woodCount (d : ℚ) (w : World) :
    (updateCutTrees d w).woodCount = w.woodCount := rfl

@[simp] theorem updateCutTrees_buildings (d : ℚ) (w : World) :
    (updateCutTrees d w).buildings = w.buildings := rfl

/-- `checkNearbyBuildings` only ever flips a building's occupied flag and
retargets the villager: every other piece of state is untouched. -/
theorem checkNearbyBuildings_frame (w : World) (v : Villager) :
    (checkNearbyBuildings w v).1.woodCount = w.woodCount
    ∧ (checkNearbyBuildings w v).1.villagers = w.villagers
    ∧ (checkNearbyBuildings w v).1.cutTrees = w.cutTrees
    ∧ (checkNearbyBuildings w v).1.treeMap = w.treeMap
    ∧ (checkNearbyBuildings w v).1.terrain = w.terrain
    ∧ (checkNearbyBuildings w v).1.occupiedTiles = w.occupiedTiles
    ∧ (checkNearbyBuildings w v).1.rng = w.rng
    ∧ (checkNearbyBuildings w v).2.hasWood = v.hasWood
    ∧ (checkNearbyBuildings w v).2.x = v.x
    ∧ (checkNearbyBuildings w v).2.y = v.y := by
  simp only [checkNearbyBuildings]
  split <;> simp

@[simp] theorem checkNearbyBuildings_woodCount (w : World) (v : Villager) :
    (checkNearbyBuildings w v).1.woodCount = w.woodCount :=
  (checkNearbyBuildings_frame w v).1

@[simp] theorem checkNearbyBuildings_villagers (w : World) (v : Villager) :
    (checkNearbyBuildings w v).1.villagers = w.villagers :=
  (checkNearbyBuildings_frame w v).2.1

@[simp] theorem checkNearbyBuildings_cutTrees (w : World) (v : Villager) :
    (checkNearbyBuildings w v).1.cutTrees = w.cutTrees :=
  (checkNearbyBuildings_frame w v).2.2.1

@[simp] theorem checkNearbyBuildings_hasWood (w : World) (v : Villager) :
    (checkNearbyBuildings w v).2.hasWood = v.hasWood :=
  (checkNearbyBuildings_frame w v).2.2.2.2.2.2.2.1

/-- The delivery-event condition for one villager. -/
def vDeliveryEvent (v : Villager) : Prop :=
  v.state = .walking ∧ v.vtype = .house
  ∧ Real.sqrt ((v.targetX - v.x) ^ 2 + (v.targetY - v.y) ^ 2) < 5
  ∧ |v.x - v.homeX| < 10 ∧ v.hasWood = true

theorem homingStep_woodCount (w : World) (v : Villager) :
    (homingStep w v).1.woodCount = w.woodCount := by
  simp only [homingStep]
  split_ifs <;> simp

theorem homingStep_hasWood (w : World) (v : Villager) :
    (homingStep w v).2.hasWood = v.hasWood := by
  simp only [homingStep]
  split_ifs with h1 h2
  · cases hfe : findEmptyBuilding w v.targetGridX v.targetGridY <;> simp [hfe]
  · simp
  · rfl

open Classical in
/-- The wood counter is incremented (by exactly `WOOD_PER_DELIVERY`) in the
movement sub-step precisely when the arrived-home delivery condition holds,
and the delivery clears `hasWood`. -/
theorem moveStep_wood (w : World) (v1 : Villager) :
    (moveStep w v1).1.woodCount
      = w.woodCount + (if (v1.state = .walking ∧ v1.vtype = .house
          ∧ Real.sqrt ((v1.targetX - v1.x) ^ 2 + (v1.targetY - v1.y) ^ 2) < 5
          ∧ |v1.x - v1.homeX| < 10 ∧ v1.hasWood = true) then WOOD_PER_DELIVERY else 0)
    ∧ ((v1.state = .walking ∧ v1.vtype = .house
          ∧ Real.sqrt ((v1.targetX - v1.x) ^ 2 + (v1.targetY - v1.y) ^ 2) < 5
          ∧ |v1.x - v1.homeX| < 10 ∧ v1.hasWood = true) →
        (moveStep w v1).2.hasWood = false) := by
  by_cases h1 : v1.state = .walking
  · simp only [moveStep, if_pos h1]
    by_cases hB : Real.sqrt ((v1.targetX - v1.x) ^ 2 + (v1.targetY - v1.y) ^ 2) < 5
    · rw [if_pos hB]
      unfold arriveStep
      by_cases hC : v1.vtype = BuildingType.house
      · rw [if_pos hC]
        by_cases hD : |v1.x - v1.homeX| < 10
        · rw [if_pos hD]
          by_cases hE : v1.hasWood = true
          · rw [if_pos hE, if_pos ⟨h1, hC, hB, hD, hE⟩]
            constructor
            · unfold_let
              split <;> simp
            · intro _
              unfold_let
              split <;> simp
          · rw [if_neg hE, if_neg (fun hc => hE hc.2.2.2.2)]
            refine ⟨?_, fun hc => absurd hc.2.2.2.2 hE⟩
            unfold_let
            split <;> simp [hE]
        · rw [if_neg hD, if_neg (fun hc => hD hc.2.2.2.1)]
          exact ⟨by simp, fun hc => absurd hc.2.2.2.1 hD⟩
      · rw [if_neg hC, if_neg (fun hc => hC hc.2.1)]
        refine ⟨?_, fun hc => absurd hc.2.1 hC⟩
        simp [drawInt]
    · rw [if_neg hB, if_neg (fun hc => hB hc.2.2.1)]
      exact ⟨by simp, fun hc => absurd hc.2.2.1 hB⟩
  · simp only [moveStep, if_neg h1]
    rw [if_neg (fun hc => h1 hc.1)]
    exact ⟨by simp, fun hc => absurd hc.1 h1⟩

theorem workingStep_woodCount (d : ℚ) (w : World) (v1 : Villager) :
    (workingStep d w v1).1.woodCount = w.woodCount := by
  simp only [workingStep]
  split_ifs <;> rfl

open Classical in
/-- The wood counter is incremented (by exactly `WOOD_PER_DELIVERY`) in a
villager update precisely when the delivery event fires, and the delivery
clears `hasWood`. -/
theorem updateVillager_wood (d : ℚ) (w : World) (v : Villager) :
    (updateVillager d w v).1.woodCount
      = w.woodCount + (if vDeliveryEvent v then WOOD_PER_DELIVERY else 0)
    ∧ (vDeliveryEvent v → (updateVillager d w v).2.hasWood = false) := by
  by_cases hs : v.state = .working
  · have hev : ¬ vDeliveryEvent v := by
      intro hc
      have h1 := hc.1
      rw [hs] at h1
      exact absurd h1 (by simp)
    rw [if_neg hev, updateVillager_of_working d w v hs]
    exact ⟨workingStep_woodCount d w v, fun hc => absurd hc hev⟩
  · rw [updateVillager_of_not_working d w v hs]
    have hmw := moveStep_wood w (animStep d v)
    simp only [animStep_state, animStep_vtype, animStep_targetX, animStep_targetY,
      animStep_x, animStep_y, animStep_homeX, animStep_hasWood] at hmw
    constructor
    · rw [homingStep_woodCount, hmw.1]
      congr 1
      exact if_congr Iff.rfl rfl rfl
    · intro hev
      rw [homingStep_hasWood]
      exact hmw.2 hev

theorem updateVillagers_single (d : ℚ) (w : World) (v : Villager)
    (h : w.villagers = [v]) :
    (updateVillagers d w).woodCount = (updateVillager d w v).1.woodCount
    ∧ (updateVillagers d w).villagers = [(updateVillager d w v).2] := by
  simp [updateVillagers, h]

theorem isDeliveryState_iff (w : World) (v : Villager) (h : w.villagers = [v]) :
    isDeliveryState w ↔ vDeliveryEvent v := by
  simp [isDeliveryState, vDeliveryEvent, h]

open Classical in
/-- C4: in a single-lumberjack world, each tick increments the wood counter
by exactly `WOOD_PER_DELIVERY` when the lumberjack arrives at its home
position carrying wood (and by nothing otherwise), clearing the carrying
flag; consequently over any run of ticks the final wood counter equals the
initial one plus `WOOD_PER_DELIVERY` times the number of completed
deliveries. -/
theorem wood_delivery_conservation :
    (∀ (d : ℚ) (w : World) (v : Villager), w.villagers = [v] →
      (tick d w).woodCount
        = w.woodCount + (if isDeliveryState w then WOOD_PER_DELIVERY else 0)
      ∧ ∃ v2, (tick d w).villagers = [v2] ∧ (isDeliveryState w → v2.hasWood = false))
    ∧ (∀ (ds : List ℚ) (w : World) (v : Villager), w.villagers = [v] →
      (runTicks ds w).woodCount
        = w.woodCount + WOOD_PER_DELIVERY * countDeliveries ds w) := by
  have hstep : ∀ (d : ℚ) (w : World) (v : Villager), w.villagers = [v] →
      (tick d w).woodCount
        = w.woodCount + (if isDeliveryState w then WOOD_PER_DELIVERY else 0)
      ∧ (tick d w).villagers = [(updateVillager d w v).2]
      ∧ (isDeliveryState w → (updateVillager d w v).2.hasWood = false) := by
    intro d w v h
    have hu := updateVillagers_single d w v h
    have hwd := updateVillager_wood d w v
    have hiff := isDeliveryState_iff w v h
    refine ⟨?_, ?_, ?_⟩
    · show (updateCutTrees d (updateVillagers d w)).woodCount = _
      rw [updateCutTrees_woodCount, hu.1, hwd.1]
      congr 1
      exact if_congr hiff.symm rfl rfl
    · show (updateCutTrees d (updateVillagers d w)).villagers = _
      rw [updateCutTrees_villagers, hu.2]
    · intro hds
      exact hwd.2 (hiff.1 hds)
  constructor
  · intro d w v h
    exact ⟨(hstep d w v h).1,
      (updateVillager d w v).2, (hstep d w v h).2.1, (hstep d w v h).2.2⟩
  · intro ds
    induction ds with
    | nil =>
      intro w v h
      simp [runTicks, countDeliveries]
    | cons d ds ih =>
      intro w v h
      have hs := hstep d w v h
      have hrec := ih (tick d w) (updateVillager d w v).2 hs.2.1
      show (runTicks ds (tick d w)).woodCount = _
      rw [hrec, hs.1]
      show _ = w.woodCount + WOOD_PER_DELIVERY *
        ((if isDeliveryState w then 1 else 0) + countDeliveries ds (tick d w))
      by_cases he : isDeliveryState w
      · rw [if_pos he, if_pos he]
        ring
      · rw [if_neg he, if_neg he]
        ring

/-- A single-lumberjack world used as witness input. -/
noncomputable def wSingle : World :=
  { allMeadowWorld with villagers := [workerV] }

/-- Witness for C4 at a concrete single-lumberjack world. -/
theorem wood_delivery_conservation_witness :
    (runTicks [] wSingle).woodCount
      = wSingle.woodCount + WOOD_PER_DELIVERY * countDeliveries [] wSingle :=
  wood_delivery_conservation.2 [] wSingle workerV rfl

/-- When every registered building is occupied, the homing check is a no-op. -/
theorem checkNearbyBuildings_all_occupied (w : World) (v : Villager)
    (hocc : ∀ i b, w.buildings.get? i = some b → b.occupied = true) :
    checkNearbyBuildings w v = (w, v) := by
  have hnone : scanForEmptyBuilding w v = none := by
    simp only [scanForEmptyBuilding]
    rw [List.findSome?_eq_none]
    intro off _
    cases hlk : List.lookup
        ((screenToGrid v.x (v.y - TILE_HEIGHT)).1 + off.1,
         (screenToGrid v.x (v.y - TILE_HEIGHT)).2 + off.2) w.buildingsMap with
    | none => rfl
    | some i =>
      cases hgt : w.buildings.get? i with
      | none =>
        rw [List.get?_eq_getElem?] at hgt
        simp [hgt]
      | some b =>
        have hb := hocc i b hgt
        rw [List.get?_eq_getElem?] at hgt
        simp [hgt, hb]
  simp [checkNearbyBuildings, hnone]

/-- C9 (amended): during a tick, a building claim is performed for *any*
agent in Walking or Idle state whose 3×3 grid neighbourhood scan finds an
unoccupied building — regardless of whether the agent is already bound to a
home: the building's occupied flag is set, the agent's role converts to the
building's type, and the agent's home position rebinds to that building.  If
every registered building is occupied, `checkNearbyBuildings` changes
nothing, and a Working agent never runs the homing check at all. -/
theorem building_claim_behaviour :
    (∀ (w : World) (v : Villager),
      (∀ i b, w.buildings.get? i = some b → b.occupied = true) →
      checkNearbyBuildings w v = (w, v))
    ∧ (∀ (w : World) (v : Villager) (i : ℕ) (b : Building),
      scanForEmptyBuilding w v = some (i, b) →
      (checkNearbyBuildings w v).1.buildings
          = w.buildings.set i { b with occupied := true }
      ∧ (checkNearbyBuildings w v).2.vtype = b.btype
      ∧ (checkNearbyBuildings w v).2.homeX
          = (gridToScreen ((b.gridX : ℝ) + 1 / 2) ((b.gridY : ℝ) + 1 / 2)).1
      ∧ (checkNearbyBuildings w v).2.homeY
          = (gridToScreen ((b.gridX : ℝ) + 1 / 2) ((b.gridY : ℝ) + 1 / 2)).2 + TILE_HEIGHT
      ∧ (checkNearbyBuildings w v).2.state = .walking)
    ∧ (∀ (d : ℚ) (w : World) (v : Villager), v.state = .working →
      (updateVillager d w v).1.buildings = w.buildings
      ∧ (updateVillager d w v).2.homeX = v.homeX
      ∧ (updateVillager d w v).2.homeY = v.homeY) := by
  refine ⟨?_, ?_, ?_⟩
  · intro w v hocc
    exact checkNearbyBuildings_all_occupied w v hocc
  · intro w v i b hf
    simp [checkNearbyBuildings, hf]
  · intro d w v h
    rw [updateVillager_of_working d w v h]
    simp only [workingStep]
    split_ifs <;> simp

/-- Witness for C9 (amended): with no buildings registered, the homing check
is a no-op, and a Working villager's tick leaves the registry and its home
untouched. -/
theorem building_claim_behaviour_witness :
    checkNearbyBuildings allMeadowWorld workerV = (allMeadowWorld, workerV)
    ∧ (updateVillager 100 allMeadowWorld workerV).1.buildings
        = allMeadowWorld.buildings
    ∧ (updateVillager 100 allMeadowWorld workerV).2.homeX = workerV.homeX
    ∧ (updateVillager 100 allMeadowWorld workerV).2.homeY = workerV.homeY :=
  ⟨building_claim_behaviour.1 allMeadowWorld workerV
      (by intro i b hgt; simp [allMeadowWorld, mkInitialWorld] at hgt),
   building_claim_behaviour.2.2 100 allMeadowWorld workerV rfl⟩

/-- `findNearestForest` depends only on the terrain and dimensions. -/
theorem findNearestForest_congr (w w' : World) (ht : w'.terrain = w.terrain)
    (hw : w'.width = w.width) (hh : w'.height = w.height) (a b : ℤ) :
    findNearestForest w' a b = findNearestForest w a b := by
  unfold findNearestForest
  rw [ht, hw, hh]

/-- The all-Meadow world after placing a house at `(3,3)`. -/
def w9a : World := placeHouse 3 3 allMeadowWorld

/-- The villager spawned at the house at `(3,3)` in the all-Meadow world: no
forest exists, so its target stays its own spawn position. -/
noncomputable def v9 : Villager :=
  { x := 0, y := 144, vtype := .house, state := .walking, targetX := 0, targetY := 144,
    targetGridX := 3, targetGridY := 3, homeX := 0, homeY := 144,
    speed := VILLAGER_SPEED, animFrame := 0, animTimer := 0, workTimer := 0,
    hasWood := false, assignedBuilding := none }

/-- The expected world after spawning the villager: the house is claimed. -/
noncomputable def w9bT : World :=
  { w9a with buildings := [{ btype := .house, occupied := true, gridX := 3, gridY := 3 }],
             villagers := [v9] }

theorem w9b_eq : spawnVillager 3 3 .house w9a = w9bT := by
  have hlk : List.lookup ((3 : ℤ), (3 : ℤ)) w9a.buildingsMap = some 0 := by decide
  have hgt : w9a.buildings.get? 0
      = some { btype := .house, occupied := false, gridX := 3, gridY := 3 } := by decide
  have hset : w9a.buildings.set 0 { btype := .house, occupied := true, gridX := 3, gridY := 3 }
      = [{ btype := .house, occupied := true, gridX := 3, gridY := 3 }] := by decide
  have hff : findNearestForest
      { w9a with buildings := [{ btype := BuildingType.house, occupied := true,
                                 gridX := 3, gridY := 3 }] } 3 3 = none := by
    rw [findNearestForest_congr allMeadowWorld _ (by decide) (by decide) (by decide)]
    decide
  simp only [spawnVillager, hlk, hgt]
  norm_num [hset, hff, w9bT, v9, gridToScreen, TILE_WIDTH, TILE_HEIGHT]
  rfl

/-- The world after additionally placing an (unoccupied) teepee at `(2,2)`,
next to the bound villager standing at the house at `(3,3)`. -/
noncomputable def w9cT : World := placeTeepee 2 2 w9bT

theorem updateVillagers_single_eq (d : ℚ) (w : World) (v : Villager)
    (h : w.villagers = [v]) :
    updateVillagers d w
      = { (updateVillager d w v).1 with villagers := [(updateVillager d w v).2] } := by
  simp [updateVillagers, h]

theorem v9_anim : animStep 0 v9 = v9 := by
  simp only [animStep, v9]
  norm_num [VILLAGER_ANIM_INTERVAL]

theorem v9_grid : screenToGrid v9.x (v9.y - TILE_HEIGHT) = (3, 3) := by
  show screenToGrid 0 (144 - TILE_HEIGHT) = (3, 3)
  unfold screenToGrid TILE_WIDTH TILE_HEIGHT
  have h1 : ((0 : ℝ) / (64 / 2) + (144 - 32) / (32 / 2)) / 2 = 7 / 2 := by norm_num
  have h2 : (((144 : ℝ) - 32) / (32 / 2) - 0 / (64 / 2)) / 2 = 7 / 2 := by norm_num
  rw [h1, h2]
  have h3 : (⌊(7 / 2 : ℝ)⌋ : ℤ) = 3 := by
    rw [Int.floor_eq_iff] <;> norm_num
  rw [h3]

theorem w9cT_terrain : w9cT.terrain = allMeadowWorld.terrain := by decide

theorem v9_arrive : arriveStep w9cT v9 = (w9cT, v9) := by
  have hff : findNearestForest w9cT 3 3 = none := by
    rw [findNearestForest_congr allMeadowWorld _ w9cT_terrain (by decide) (by decide)]
    decide
  have hty : v9.vtype = BuildingType.house := rfl
  have hhome : |v9.x - v9.homeX| < 10 := by
    show |(0 : ℝ) - 0| < 10
    norm_num
  have hwood : v9.hasWood = false := rfl
  simp only [arriveStep, hty, if_pos rfl, if_pos hhome, hwood, Bool.false_eq_true, if_false,
    v9_grid, hff]
  simp

theorem v9_move : moveStep w9cT v9 = arriveStep w9cT v9 := by
  have hstate : v9.state = VillagerState.walking := rfl
  have hdist : Real.sqrt ((v9.targetX - v9.x) ^ 2 + (v9.targetY - v9.y) ^ 2) < 5 := by
    show Real.sqrt (((0 : ℝ) - 0) ^ 2 + ((144 : ℝ) - 144) ^ 2) < 5
    norm_num
  simp only [moveStep, hstate, if_pos rfl, if_pos hdist]
  simp

theorem v9_scan :
    scanForEmptyBuilding w9cT v9
      = some (1, { btype := .teepee, occupied := false, gridX := 2, gridY := 2 }) := by
  simp only [scanForEmptyBuilding, v9_grid]
  decide

theorem v9_check :
    (checkNearbyBuildings w9cT v9).1.buildings
        = w9cT.buildings.set 1 { btype := .teepee, occupied := true, gridX := 2, gridY := 2 }
    ∧ (checkNearbyBuildings w9cT v9).2.homeY = 112
    ∧ (checkNearbyBuildings w9cT v9).2.vtype = BuildingType.teepee := by
  refine ⟨?_, ?_, ?_⟩
  · simp [checkNearbyBuildings, v9_scan]
  · norm_num [checkNearbyBuildings, v9_scan, gridToScreen, TILE_HEIGHT]
  · simp [checkNearbyBuildings, v9_scan]

theorem v9_homing : homingStep w9cT v9 = checkNearbyBuildings w9cT v9 := by
  have hstate : v9.state = VillagerState.walking := rfl
  have hty : ¬(v9.vtype = BuildingType.villager ∧ v9.assignedBuilding = none) := by
    intro hc
    exact absurd hc.1 (by simp [v9])
  simp only [homingStep, hstate, if_neg hty]
  simp

theorem v9_update :
    updateVillager 0 w9cT v9 = checkNearbyBuildings w9cT v9 := by
  rw [updateVillager_of_not_working 0 w9cT v9 (by rw [show v9.state = .walking from rfl]; simp)]
  rw [v9_anim, v9_move, v9_arrive]
  exact v9_homing

/-- Counterexample to C9: in the reachable state obtained by placing a house
at `(3,3)` on the all-Meadow world, spawning its villager (which binds the
agent to that home — the house record is occupied), and then placing a
teepee at `(2,2)`, a single tick makes this already-bound agent claim the
unoccupied teepee: the teepee's occupied flag flips, the agent's role
converts to teepee, and its `homePosition` (vertical coordinate 144, the
house) is rebound to the teepee (vertical coordinate 112). -/
theorem building_claim_rebinds_bound_agent :
    placeTeepee 2 2 (spawnVillager 3 3 .house (placeHouse 3 3 allMeadowWorld)) = w9cT
    ∧ w9cT.buildings.get? 0
        = some { btype := .house, occupied := true, gridX := 3, gridY := 3 }
    ∧ w9cT.buildings.get? 1
        = some { btype := .teepee, occupied := false, gridX := 2, gridY := 2 }
    ∧ w9cT.villagers.map Villager.homeY = [144]
    ∧ (tick 0 w9cT).villagers.map Villager.homeY = [112]
    ∧ (tick 0 w9cT).villagers.map Villager.vtype = [BuildingType.teepee]
    ∧ (tick 0 w9cT).buildings.get? 1
        = some { btype := .teepee, occupied := true, gridX := 2, gridY := 2 } := by
  have hvill : w9cT.villagers = [v9] := rfl
  have htick : tick 0 w9cT
      = updateCutTrees 0 { (updateVillager 0 w9cT v9).1
          with villagers := [(updateVillager 0 w9cT v9).2] } := by
    show updateCutTrees 0 (updateVillagers 0 w9cT) = _
    rw [updateVillagers_single_eq 0 w9cT v9 hvill]
  have hbuild1 : w9cT.buildings.get? 1
      = some { btype := BuildingType.teepee, occupied := false, gridX := 2, gridY := 2 } := by
    decide
  refine ⟨?_, by decide, hbuild1, ?_, ?_, ?_, ?_⟩
  · show placeTeepee 2 2 (spawnVillager 3 3 .house w9a) = w9cT
    rw [w9b_eq]
    rfl
  · rw [hvill]
    show [v9.homeY] = [(144 : ℝ)]
    rfl
  · rw [htick]
    simp only [updateCutTrees_villagers]
    rw [v9_update]
    simp [v9_check.2.1]
  · rw [htick]
    simp only [updateCutTrees_villagers]
    rw [v9_update]
    simp [v9_check.2.2]
  · rw [htick]
    simp only [updateCutTrees_buildings]
    show (updateVillager 0 w9cT v9).1.buildings.get? 1 = _
    rw [v9_update, v9_check.1, List.get?_set_eq, hbuild1]
    rfl

/-- A noise sampler whose only Forest-band sample is at the scaled
coordinates of cell `(5,5)` (both `5 * noiseScale = 1/4`); every other
sample lands in the meadow band. -/
def nf85 : ℚ → ℚ → ℚ := fun qx qy => if qx = 1 / 4 ∧ qy = 1 / 4 then 7 / 10 else 1 / 2

/-- The 8×8 grid with a single Forest tile at `(5,5)` and Meadow elsewhere. -/
def forest8Grid : List (List TerrainType) :=
  (List.replicate 8 (List.replicate 8 TerrainType.meadow)).set 5
    ((List.replicate 8 TerrainType.meadow).set 5 .forest)

theorem forest8Grid_generated :
    generateTerrain nf85 TERRAIN_CONFIG 8 8 (fun _ => 1 / 2) = forest8Grid := by
  norm_num [generateTerrain, genRows, genCells, classifyCell, TERRAIN_CONFIG, nf85,
    forest8Grid, List.replicate]

/-- The freshly created world on the 8×8 single-forest terrain. -/
def w8init : World := mkInitialWorld forest8Grid 8 8

/-- The world after placing houses at `(4,6)` and `(6,4)` — the two anchors
whose spawn tiles are screen-aligned with the forest tile `(5,5)`. -/
def w8Houses : World := placeHouse 6 4 (placeHouse 4 6 w8init)

/-- The first lumberjack after `k` movement ticks: spawned at the house at
`(4,6)` (screen position `(-64, 208)`), walking towards the forest tile
`(5,5)` (screen position `(0, 208)`). -/
noncomputable def vA (k : ℕ) : Villager :=
  { x := -64 + k, y := 208, vtype := .house, state := .walking, targetX := 0,
    targetY := 208, targetGridX := 5, targetGridY := 5, homeX := -64, homeY := 208,
    speed := VILLAGER_SPEED, animFrame := 0, animTimer := 0, workTimer := 0,
    hasWood := false, assignedBuilding := none }

/-- The second lumberjack after `k` movement ticks: spawned at the house at
`(6,4)` (screen position `(64, 208)`), walking towards the same forest tile. -/
noncomputable def vB (k : ℕ) : Villager :=
  { x := 64 - k, y := 208, vtype := .house, state := .walking, targetX := 0,
    targetY := 208, targetGridX := 5, targetGridY := 5, homeX := 64, homeY := 208,
    speed := VILLAGER_SPEED, animFrame := 0, animTimer := 0, workTimer := 0,
    hasWood := false, assignedBuilding := none }

/-- The world of the duplicate-record trace after `k` movement ticks: both
houses claimed, both lumberjacks walking towards the forest. -/
noncomputable def W8 (k : ℕ) : World :=
  { w8Houses with
    buildings := [{ btype := .house, occupied := true, gridX := 4, gridY := 6 },
                  { btype := .house, occupied := true, gridX := 6, gridY := 4 }],
    villagers := [vA k, vB k] }

/-- The trace world after the first spawn: the house at `(4,6)` is claimed. -/
noncomputable def w8cT : World :=
  { w8Houses with
    buildings := [{ btype := .house, occupied := true, gridX := 4, gridY := 6 },
                  { btype := .house, occupied := false, gridX := 6, gridY := 4 }],
    villagers := [vA 0] }

theorem w8c_eq : spawnVillager 4 6 .house w8Houses = w8cT := by
  have hlk : List.lookup ((4 : ℤ), (6 : ℤ)) w8Houses.buildingsMap = some 0 := by decide
  have hgt : w8Houses.buildings.get? 0
      = some { btype := .house, occupied := false, gridX := 4, gridY := 6 } := by decide
  have hset : w8Houses.buildings.set 0
        { btype := .house, occupied := true, gridX := 4, gridY := 6 }
      = [{ btype := .house, occupied := true, gridX := 4, gridY := 6 },
         { btype := .house, occupied := false, gridX := 6, gridY := 4 }] := by decide
  have hff : findNearestForest
      { w8Houses with
        buildings := [{ btype := BuildingType.house, occupied := true, gridX := 4, gridY := 6 },
                      { btype := BuildingType.house, occupied := false, gridX := 6, gridY := 4 }] }
      4 6 = some (5, 5) := by
    rw [findNearestForest_congr w8init _ (by decide) (by decide) (by decide)]
    decide
  simp only [spawnVillager, hlk, hgt]
  norm_num [hset, hff, w8cT, vA, gridToScreen, TILE_WIDTH, TILE_HEIGHT]
  rfl

theorem w8d_eq : spawnVillager 6 4 .house w8cT = W8 0 := by
  have hlk : List.lookup ((6 : ℤ), (4 : ℤ)) w8cT.buildingsMap = some 1 := by decide
  have hgt : w8cT.buildings.get? 1
      = some { btype := .house, occupied := false, gridX := 6, gridY := 4 } := by rfl
  have hset : w8cT.buildings.set 1
        { btype := .house, occupied := true, gridX := 6, gridY := 4 }
      = [{ btype := .house, occupied := true, gridX := 4, gridY := 6 },
         { btype := .house, occupied := true, gridX := 6, gridY := 4 }] := by rfl
  have hff : findNearestForest
      { w8cT with
        buildings := [{ btype := BuildingType.house, occupied := true, gridX := 4, gridY := 6 },
                      { btype := BuildingType.house, occupied := true, gridX := 6, gridY := 4 }] }
      6 4 = some (5, 5) := by
    rw [findNearestForest_congr w8init _ (by decide) (by decide) (by decide)]
    decide
  simp only [spawnVillager, hlk, hgt, hset]
  rw [findNearestForest_congr w8init]
  · rw [show findNearestForest w8init 6 4 = some (5, 5) by decide]
    norm_num [W8, w8cT, vA, vB, gridToScreen, TILE_WIDTH, TILE_HEIGHT]
  · decide
  · decide
  · decide

/-- A zero-delta tick leaves a zeroed animation timer unchanged. -/
theorem animStep_zero (v : Villager) (h : v.animTimer = 0) : animStep 0 v = v := by
  simp only [animStep, h]
  split_ifs with h1 h2
  · exfalso
    norm_num [VILLAGER_ANIM_INTERVAL] at h2
  · ext <;> simp [h]
  · rfl

/-- A scheduler tick with no pending records is a no-op. -/
theorem updateCutTrees_nil (d : ℚ) (w : World) (h : w.cutTrees = []) :
    updateCutTrees d w = w := by
  simp only [updateCutTrees, h, runCutTrees]
  rw [← h]

/-- The movement sub-step when the villager is still more than 5 px from its
target: one `speed`-length step along the line towards the target. -/
theorem moveStep_far (w : World) (v : Villager) (hst : v.state = .walking)
    (hnlt : ¬ Real.sqrt ((v.targetX - v.x) ^ 2 + (v.targetY - v.y) ^ 2) < 5) :
    moveStep w v = (w, { v with
      x := v.x + (v.targetX - v.x)
            / Real.sqrt ((v.targetX - v.x) ^ 2 + (v.targetY - v.y) ^ 2) * v.speed,
      y := v.y + (v.targetY - v.y)
            / Real.sqrt ((v.targetX - v.x) ^ 2 + (v.targetY - v.y) ^ 2) * v.speed }) := by
  simp only [moveStep, hst]
  rw [if_pos trivial, if_neg hnlt]

/-- The homing sub-step for a Walking house villager in a world whose
buildings are all occupied: a no-op. -/
theorem homingStep_house_noop (w : World) (v : Villager) (hst : v.state = .walking)
    (hty : v.vtype = .house)
    (hocc : ∀ i b, w.buildings.get? i = some b → b.occupied = true) :
    homingStep w v = (w, v) := by
  simp only [homingStep, hst, hty]
  rw [if_pos (Or.inl trivial)]
  rw [if_neg (fun hc => absurd hc.1 (by simp))]
  exact checkNearbyBuildings_all_occupied w v hocc

theorem W8_buildings_occ (k : ℕ) :
    ∀ i b, (W8 k).buildings.get? i = some b → b.occupied = true := by
  intro i b hgt
  have hb : (W8 k).buildings
      = [{ btype := .house, occupied := true, gridX := 4, gridY := 6 },
         { btype := .house, occupied := true, gridX := 6, gridY := 4 }] := rfl
  rw [hb] at hgt
  match i with
  | 0 =>
    simp [List.get?] at hgt
    rw [← hgt]
  | 1 =>
    simp [List.get?] at hgt
    rw [← hgt]
  | n + 2 =>
    simp [List.get?] at hgt

theorem vA_update (k : ℕ) (hk : k ≤ 59) (w : World)
    (hocc : ∀ i b, w.buildings.get? i = some b → b.occupied = true) :
    updateVillager 0 w (vA k) = (w, vA (k + 1)) := by
  have hkR : (k : ℝ) ≤ 59 := by exact_mod_cast hk
  have hpos : (0 : ℝ) < 64 - k := by linarith
  have hdist : Real.sqrt (((vA k).targetX - (vA k).x) ^ 2 + ((vA k).targetY - (vA k).y) ^ 2)
      = 64 - (k : ℝ) := by
    show Real.sqrt (((0 : ℝ) - (-64 + k)) ^ 2 + ((208 : ℝ) - 208) ^ 2) = 64 - (k : ℝ)
    have h1 : ((0 : ℝ) - (-64 + k)) = 64 - k := by ring
    have h2 : (((208 : ℝ) - 208)) ^ 2 = 0 := by norm_num
    rw [h1, h2, add_zero, Real.sqrt_sq (le_of_lt hpos)]
  have hnlt : ¬ Real.sqrt (((vA k).targetX - (vA k).x) ^ 2 + ((vA k).targetY - (vA k).y) ^ 2)
      < 5 := by
    rw [hdist]
    linarith
  rw [updateVillager_of_not_working 0 w (vA k)
      (by rw [show (vA k).state = .walking from rfl]; simp)]
  rw [animStep_zero _ rfl, moveStep_far w (vA k) rfl hnlt]
  rw [homingStep_house_noop w _ rfl rfl hocc]
  have hx : (vA k).x + ((vA k).targetX - (vA k).x)
        / Real.sqrt (((vA k).targetX - (vA k).x) ^ 2 + ((vA k).targetY - (vA k).y) ^ 2)
        * (vA k).speed = -64 + ((k : ℝ) + 1) := by
    rw [hdist]
    show (-64 + (k : ℝ)) + ((0 : ℝ) - (-64 + k)) / (64 - k) * VILLAGER_SPEED = -64 + (k + 1)
    rw [show ((0 : ℝ) - (-64 + k)) = 64 - k by ring]
    rw [div_self (ne_of_gt hpos)]
    simp only [VILLAGER_SPEED]
    ring
  have hy : (vA k).y + ((vA k).targetY - (vA k).y)
        / Real.sqrt (((vA k).targetX - (vA k).x) ^ 2 + ((vA k).targetY - (vA k).y) ^ 2)
        * (vA k).speed = 208 := by
    rw [hdist]
    show (208 : ℝ) + ((208 : ℝ) - 208) / (64 - k) * VILLAGER_SPEED = 208
    norm_num
  rw [Prod.mk.injEq]
  refine ⟨rfl, ?_⟩
  rw [hx, hy]
  ext <;> simp [vA] <;> push_cast <;> ring

theorem vB_update (k : ℕ) (hk : k ≤ 59) (w : World)
    (hocc : ∀ i b, w.buildings.get? i = some b → b.occupied = true) :
    updateVillager 0 w (vB k) = (w, vB (k + 1)) := by
  have hkR : (k : ℝ) ≤ 59 := by exact_mod_cast hk
  have hpos : (0 : ℝ) < 64 - k := by linarith
  have hdist : Real.sqrt (((vB k).targetX - (vB k).x) ^ 2 + ((vB k).targetY - (vB k).y) ^ 2)
      = 64 - (k : ℝ) := by
    show Real.sqrt (((0 : ℝ) - (64 - k)) ^ 2 + ((208 : ℝ) - 208) ^ 2) = 64 - (k : ℝ)
    have h1 : (((0 : ℝ) - (64 - k))) ^ 2 = (64 - (k : ℝ)) ^ 2 := by ring
    have h2 : (((208 : ℝ) - 208)) ^ 2 = 0 := by norm_num
    rw [h1, h2, add_zero, Real.sqrt_sq (le_of_lt hpos)]
  have hnlt : ¬ Real.sqrt (((vB k).targetX - (vB k).x) ^ 2 + ((vB k).targetY - (vB k).y) ^ 2)
      < 5 := by
    rw [hdist]
    linarith
  rw [updateVillager_of_not_working 0 w (vB k)
      (by rw [show (vB k).state = .walking from rfl]; simp)]
  rw [animStep_zero _ rfl, moveStep_far w (vB k) rfl hnlt]
  rw [homingStep_house_noop w _ rfl rfl hocc]
  have hx : (vB k).x + ((vB k).targetX - (vB k).x)
        / Real.sqrt (((vB k).targetX - (vB k).x) ^ 2 + ((vB k).targetY - (vB k).y) ^ 2)
        * (vB k).speed = 64 - ((k : ℝ) + 1) := by
    rw [hdist]
    show (64 - (k : ℝ)) + ((0 : ℝ) - (64 - k)) / (64 - k) * VILLAGER_SPEED = 64 - (k + 1)
    rw [show ((0 : ℝ) - (64 - k)) = -(64 - k) by ring]
    rw [neg_div, div_self (ne_of_gt hpos)]
    simp only [VILLAGER_SPEED]
    ring
  have hy : (vB k).y + ((vB k).targetY - (vB k).y)
        / Real.sqrt (((vB k).targetX - (vB k).x) ^ 2 + ((vB k).targetY - (vB k).y) ^ 2)
        * (vB k).speed = 208 := by
    rw [hdist]
    show (208 : ℝ) + ((208 : ℝ) - 208) / (64 - k) * VILLAGER_SPEED = 208
    norm_num
  rw [Prod.mk.injEq]
  refine ⟨rfl, ?_⟩
  rw [hx, hy]
  ext <;> simp [vB] <;> push_cast <;> ring

theorem updateVillagers_pair (d : ℚ) (w : World) (v v' : Villager)
    (h : w.villagers = [v, v']) :
    updateVillagers d w
      = { (updateVillager d (updateVillager d w v).1 v').1 with
          villagers := [(updateVillager d w v).2,
                        (updateVillager d (updateVillager d w v).1 v').2] } := by
  simp [updateVillagers, h]

/-- One movement tick of the duplicate-record trace while both lumberjacks
are still more than 5 px from the forest target. -/
theorem w8_tick (k : ℕ) (hk : k ≤ 59) : tick 0 (W8 k) = W8 (k + 1) := by
  have e1 : (updateVillager 0 (W8 k) (vA k)).1 = W8 k := by
    rw [vA_update k hk (W8 k) (W8_buildings_occ k)]
  have e1' : (updateVillager 0 (W8 k) (vA k)).2 = vA (k + 1) := by
    rw [vA_update k hk (W8 k) (W8_buildings_occ k)]
  have e2 : (updateVillager 0 (W8 k) (vB k)).1 = W8 k := by
    rw [vB_update k hk (W8 k) (W8_buildings_occ k)]
  have e2' : (updateVillager 0 (W8 k) (vB k)).2 = vB (k + 1) := by
    rw [vB_update k hk (W8 k) (W8_buildings_occ k)]
  show updateCutTrees 0 (updateVillagers 0 (W8 k)) = W8 (k + 1)
  rw [updateVillagers_pair 0 (W8 k) (vA k) (vB k) rfl, e1, e2, e2', e1']
  rw [updateCutTrees_nil 0 { W8 k with villagers := [vA (k + 1), vB (k + 1)] } rfl]
  rfl

/-- Iterated movement ticks of the duplicate-record trace. -/
theorem w8_walk_aux : ∀ (n k : ℕ), k + n ≤ 60 →
    runTicks (List.replicate n 0) (W8 k) = W8 (k + n) := by
  intro n
  induction n with
  | zero => intro k hk; simp [runTicks]
  | succ m ih =>
    intro k hk
    rw [List.replicate_succ]
    show runTicks (List.replicate m 0) (tick 0 (W8 k)) = W8 (k + (m + 1))
    rw [w8_tick k (by omega), ih (k + 1) (by omega)]
    exact congrArg W8 (by omega)

/-- The movement sub-step within 5 px of the target: the arrival transition
fires. -/
theorem moveStep_near (w : World) (v : Villager) (hst : v.state = .walking)
    (hlt : Real.sqrt ((v.targetX - v.x) ^ 2 + (v.targetY - v.y) ^ 2) < 5) :
    moveStep w v = arriveStep w v := by
  simp only [moveStep, hst]
  rw [if_pos trivial, if_pos hlt]

/-- The arrival transition for a house villager away from home: it starts
working. -/
theorem arriveStep_to_working (w : World) (v : Villager) (hty : v.vtype = .house)
    (hfar : ¬ |v.x - v.homeX| < 10) :
    arriveStep w v = (w, { v with state := .working, workTimer := 0 }) := by
  simp only [arriveStep, hty]
  rw [if_pos trivial, if_neg hfar]

/-- The homing sub-step never runs for a Working villager. -/
theorem homingStep_working (w : World) (v : Villager) (h : v.state = .working) :
    homingStep w v = (w, v) := by
  simp only [homingStep, h]
  rw [if_neg (by simp)]

/-- The Working branch on the tick where the accumulated work timer exceeds
`TREE_WORK_DURATION`: the tree is removed, a zero-timer `CutTree` record is
appended and the villager heads home carrying wood. -/
theorem workingStep_fires (d : ℚ) (w : World) (v : Villager)
    (h : v.workTimer + d > TREE_WORK_DURATION) :
    workingStep d w v
      = ({ w with treeMap := w.treeMap.erase (v.targetGridX, v.targetGridY),
                  cutTrees := w.cutTrees ++ [⟨v.targetGridX, v.targetGridY, 0⟩] },
         { v with workTimer := 0, state := .walking, hasWood := true,
                  targetX := v.homeX, targetY := v.homeY }) := by
  simp only [workingStep]
  rw [if_pos h]

/-- The first lumberjack just after arriving at the forest tile. -/
noncomputable def vAwork : Villager := { vA 60 with state := .working, workTimer := 0 }

/-- The second lumberjack just after arriving at the forest tile. -/
noncomputable def vBwork : Villager := { vB 60 with state := .working, workTimer := 0 }

/-- The trace world after the arrival tick: both lumberjacks Working on the
same forest tile. -/
noncomputable def W8work : World := { W8 60 with villagers := [vAwork, vBwork] }

theorem vA60_update : updateVillager 0 (W8 60) (vA 60) = (W8 60, vAwork) := by
  have hdist : Real.sqrt (((vA 60).targetX - (vA 60).x) ^ 2
      + ((vA 60).targetY - (vA 60).y) ^ 2) < 5 := by
    show Real.sqrt (((0 : ℝ) - (-64 + ((60 : ℕ) : ℝ))) ^ 2 + ((208 : ℝ) - 208) ^ 2) < 5
    have h1 : ((0 : ℝ) - (-64 + ((60 : ℕ) : ℝ))) ^ 2 + ((208 : ℝ) - 208) ^ 2 = 16 := by
      push_cast
      norm_num
    rw [h1, show (16 : ℝ) = 4 ^ 2 by norm_num, Real.sqrt_sq (by norm_num : (0 : ℝ) ≤ 4)]
    norm_num
  have hfar : ¬ |(vA 60).x - (vA 60).homeX| < 10 := by
    show ¬ |(-64 + ((60 : ℕ) : ℝ)) - -64| < 10
    have h2 : ((-64 : ℝ) + ((60 : ℕ) : ℝ)) - -64 = 60 := by push_cast; ring
    rw [h2]
    norm_num
  rw [updateVillager_of_not_working 0 (W8 60) (vA 60)
      (by rw [show (vA 60).state = .walking from rfl]; simp)]
  rw [animStep_zero _ rfl, moveStep_near (W8 60) (vA 60) rfl hdist]
  rw [arriveStep_to_working (W8 60) (vA 60) rfl hfar]
  show homingStep (W8 60) vAwork = (W8 60, vAwork)
  exact homingStep_working _ _ rfl

theorem vB60_update : updateVillager 0 (W8 60) (vB 60) = (W8 60, vBwork) := by
  have hdist : Real.sqrt (((vB 60).targetX - (vB 60).x) ^ 2
      + ((vB 60).targetY - (vB 60).y) ^ 2) < 5 := by
    show Real.sqrt (((0 : ℝ) - (64 - ((60 : ℕ) : ℝ))) ^ 2 + ((208 : ℝ) - 208) ^ 2) < 5
    have h1 : ((0 : ℝ) - (64 - ((60 : ℕ) : ℝ))) ^ 2 + ((208 : ℝ) - 208) ^ 2 = 16 := by
      push_cast
      norm_num
    rw [h1, show (16 : ℝ) = 4 ^ 2 by norm_num, Real.sqrt_sq (by norm_num : (0 : ℝ) ≤ 4)]
    norm_num
  have hfar : ¬ |(vB 60).x - (vB 60).homeX| < 10 := by
    show ¬ |(64 - ((60 : ℕ) : ℝ)) - 64| < 10
    have h2 : ((64 : ℝ) - ((60 : ℕ) : ℝ)) - 64 = -60 := by push_cast; ring
    rw [h2]
    norm_num
  rw [updateVillager_of_not_working 0 (W8 60) (vB 60)
      (by rw [show (vB 60).state = .walking from rfl]; simp)]
  rw [animStep_zero _ rfl, moveStep_near (W8 60) (vB 60) rfl hdist]
  rw [arriveStep_to_working (W8 60) (vB 60) rfl hfar]
  show homingStep (W8 60) vBwork = (W8 60, vBwork)
  exact homingStep_working _ _ rfl

/-- The arrival tick of the duplicate-record trace. -/
theorem w8_arrive : tick 0 (W8 60) = W8work := by
  have e1 : (updateVillager 0 (W8 60) (vA 60)).1 = W8 60 := by rw [vA60_update]
  have e1' : (updateVillager 0 (W8 60) (vA 60)).2 = vAwork := by rw [vA60_update]
  have e2 : (updateVillager 0 (W8 60) (vB 60)).1 = W8 60 := by rw [vB60_update]
  have e2' : (updateVillager 0 (W8 60) (vB 60)).2 = vBwork := by rw [vB60_update]
  show updateCutTrees 0 (updateVillagers 0 (W8 60)) = W8work
  rw [updateVillagers_pair 0 (W8 60) (vA 60) (vB 60) rfl, e1, e2, e2', e1']
  rw [updateCutTrees_nil 0 { W8 60 with villagers := [vAwork, vBwork] } rfl]
  rfl

/-- The first lumberjack just after finishing its cut. -/
noncomputable def vAdone : Villager :=
  { vAwork with workTimer := 0, state := .walking, hasWood := true,
                targetX := vAwork.homeX, targetY := vAwork.homeY }

/-- The second lumberjack just after finishing its cut. -/
noncomputable def vBdone : Villager :=
  { vBwork with workTimer := 0, state := .walking, hasWood := true,
                targetX := vBwork.homeX, targetY := vBwork.homeY }

/-- The trace world after the first lumberjack's cut completes. -/
noncomputable def wA : World :=
  { W8work with treeMap := W8work.treeMap.erase ((5 : ℤ), (5 : ℤ)),
                cutTrees := W8work.cutTrees ++ [⟨5, 5, 0⟩] }

/-- The trace world after the second lumberjack's cut completes: a second
record for the same tile is appended. -/
noncomputable def wB : World :=
  { wA with treeMap := wA.treeMap.erase ((5 : ℤ), (5 : ℤ)),
            cutTrees := wA.cutTrees ++ [⟨5, 5, 0⟩] }

theorem vAwork_update : updateVillager 2001 W8work vAwork = (wA, vAdone) := by
  rw [updateVillager_of_working 2001 W8work vAwork rfl]
  rw [workingStep_fires 2001 W8work vAwork
      (by show (0 : ℚ) + 2001 > TREE_WORK_DURATION; norm_num [TREE_WORK_DURATION])]
  rfl

theorem vBwork_update : updateVillager 2001 wA vBwork = (wB, vBdone) := by
  rw [updateVillager_of_working 2001 wA vBwork rfl]
  rw [workingStep_fires 2001 wA vBwork
      (by show (0 : ℚ) + 2001 > TREE_WORK_DURATION; norm_num [TREE_WORK_DURATION])]
  rfl

/-- The pending records after the work tick: two live records for `(5,5)`. -/
theorem w8_work_cutTrees :
    (tick 2001 W8work).cutTrees = [⟨5, 5, 2001⟩, ⟨5, 5, 2001⟩] := by
  have e1 : (updateVillager 2001 W8work vAwork).1 = wA := by rw [vAwork_update]
  have e1' : (updateVillager 2001 W8work vAwork).2 = vAdone := by rw [vAwork_update]
  have e2 : (updateVillager 2001 wA vBwork).1 = wB := by rw [vBwork_update]
  have e2' : (updateVillager 2001 wA vBwork).2 = vBdone := by rw [vBwork_update]
  show (updateCutTrees 2001 (updateVillagers 2001 W8work)).cutTrees = _
  rw [updateVillagers_pair 2001 W8work vAwork vBwork rfl, e1, e2, e2', e1']
  rw [updateCutTrees_cutTrees]
  have hct : ({ wB with villagers := [vAdone, vBdone] } : World).cutTrees
      = [⟨5, 5, 0⟩, ⟨5, 5, 0⟩] := rfl
  rw [hct]
  norm_num [runCutTrees, FOREST_TO_MEADOW_DELAY]

/-- Counterexample to C8: on generated terrain with a single Forest tile at
`(5,5)`, placing houses at `(4,6)` and `(6,4)` and spawning their two
lumberjacks reaches a state from which 60 movement ticks, the arrival tick
and one long work tick leave TWO simultaneously pending `CutTree` records for
the same grid coordinate `(5,5)` — the pending collection does not hold at
most one record per coordinate. -/
theorem duplicate_cutTree_records_reachable :
    generateTerrain nf85 TERRAIN_CONFIG 8 8 (fun _ => 1 / 2) = forest8Grid
    ∧ spawnVillager 6 4 .house
        (spawnVillager 4 6 .house
          (placeHouse 6 4 (placeHouse 4 6 (mkInitialWorld forest8Grid 8 8)))) = W8 0
    ∧ (runTicks (List.replicate 60 0 ++ [0, 2001]) (W8 0)).cutTrees
        = [⟨5, 5, 2001⟩, ⟨5, 5, 2001⟩]
    ∧ ((runTicks (List.replicate 60 0 ++ [0, 2001]) (W8 0)).cutTrees.countP
        (fun r => r.gridX == 5 && r.gridY == 5)) = 2 := by
  have hrun : (runTicks (List.replicate 60 0 ++ [0, 2001]) (W8 0)).cutTrees
      = [⟨5, 5, 2001⟩, ⟨5, 5, 2001⟩] := by
    have hsplit : runTicks (List.replicate 60 0 ++ [0, 2001]) (W8 0)
        = runTicks [0, 2001] (runTicks (List.replicate 60 0) (W8 0)) := by
      simp [runTicks]
    have hwalk : runTicks (List.replicate 60 0) (W8 0) = W8 60 := by
      have h := w8_walk_aux 60 0 (by norm_num)
      simpa using h
    rw [hsplit, hwalk]
    show (tick 2001 (tick 0 (W8 60))).cutTrees = _
    rw [w8_arrive]
    exact w8_work_cutTrees
  refine ⟨forest8Grid_generated, ?_, hrun, ?_⟩
  · show spawnVillager 6 4 .house (spawnVillager 4 6 .house w8Houses) = W8 0
    rw [w8c_eq, w8d_eq]
  · rw [hrun]
    rfl
